import Mathlib

/-!
Verification of the modhost-bridge daemon against its natural-language
specification.  The definitions below are a shallow embedding of the C++
sources under `src/audio-engine/modhost-bridge/src/`: pure fragments become
Lean functions, stateful operations become explicit state-passing functions,
engine I/O becomes a function argument `engine : String → Option String`
(mirroring `send_to_modhost`, which returns `std::optional<std::string>`),
and C++ exceptions become `Except`/error results.  Machine doubles are
modelled as exact rationals carried by the decimal numerals that appear on
the wire; `uint32_t` is modelled as `Nat` with the `2^32` bound made
explicit where the code can overflow.
-/

namespace ModhostBridge

/-! ## Character and string helpers shared by the embeddings -/

/-- Whitespace as classified by `std::isspace` in the "C" locale, which is
what `std::istream` extraction (`operator>>`) skips. -/
def isStreamWs (c : Char) : Bool :=
  c = ' ' || c = '\t' || c = '\n' || c = '\r' || c = '\x0b' || c = '\x0c'

/-- Numeric value accumulated by decimal digit characters, folding left as a
base-10 positional reader does (used to model `std::num_get` / `strtol`). -/
def natFromDigits (ds : List Char) : Nat :=
  ds.foldl (fun a c => 10 * a + (c.toNat - 48)) 0

/-- Byte-wise `::tolower` over a string, as used by
`PluginSearchEngine::toLower` (ASCII case folding). -/
def toLowerStr (s : String) : String :=
  String.mk (s.data.map Char.toLower)

/-- Case-sensitive substring test, modelling
`std::string::find(needle) != npos`. -/
def containsSub (hay needle : String) : Bool :=
  decide (needle.data <:+: hay.data)

/-! ## Health state (src/utils/types.cpp, `HealthState`) -/

/-- HealthStatus enum from `src/utils/types.h`. -/
inductive HealthStatus where
  | starting
  | healthy
  | degraded
  | unhealthy
deriving DecidableEq, Repr

/-- HealthState from `src/utils/types.h`; the `last_health_log` timestamp
only throttles log lines and is omitted from the functional model. -/
structure HealthState where
  status : HealthStatus
  command_connected : Bool
  feedback_connected : Bool
deriving DecidableEq, Repr

/-- Initial health state: `status = Starting`, both flags false
(member initializers in `src/utils/types.h`). -/
def HealthState.initial : HealthState :=
  { status := .starting, command_connected := false, feedback_connected := false }

/-- HealthState::update_overall_status from `src/utils/types.cpp` lines
21–45 (the logging side effects carry no state besides the timestamp and
are omitted). -/
def HealthState.update_overall_status (s : HealthState) : HealthState :=
  let new_status :=
    if s.command_connected && s.feedback_connected then HealthStatus.healthy
    else if s.command_connected then HealthStatus.degraded
    else HealthStatus.unhealthy
  { s with status := new_status }

/-- HealthState::update_command_connection from `src/utils/types.cpp`. -/
def HealthState.update_command_connection (s : HealthState) (connected : Bool) :
    HealthState :=
  HealthState.update_overall_status { s with command_connected := connected }

/-- HealthState::update_feedback_connection from `src/utils/types.cpp`. -/
def HealthState.update_feedback_connection (s : HealthState) (connected : Bool) :
    HealthState :=
  HealthState.update_overall_status { s with feedback_connected := connected }

/-- One mutation of the health state: the two mutators exposed to the
command client and the feedback reader. -/
inductive HealthUpdate where
  | markCommand (connected : Bool)
  | markFeedback (connected : Bool)
deriving DecidableEq, Repr

/-- Apply one health mutation. -/
def HealthState.applyUpdate (s : HealthState) : HealthUpdate → HealthState
  | .markCommand b => s.update_command_connection b
  | .markFeedback b => s.update_feedback_connection b

/-- Apply a sequence of health mutations in order. -/
def HealthState.applyUpdates (s : HealthState) (us : List HealthUpdate) : HealthState :=
  us.foldl HealthState.applyUpdate s

/-- Status table of spec §4.1: Unhealthy when command is down, Degraded when
only feedback is down, Healthy when both are up. -/
def derivedStatus (command feedback : Bool) : HealthStatus :=
  if command && feedback then .healthy
  else if command then .degraded
  else .unhealthy

/-! ## Model of `std::istringstream` extraction

`parse_feedback_line` (src/utils/parser.cpp) drives an `std::istringstream`
over the record.  We model the stream as the remaining characters plus the
fail flag.  Extraction semantics follow C++11 `num_get`:

* an extraction on an already-failed stream leaves the target variable
  unchanged (the sentry fails);
* skipping whitespace that runs into end-of-input fails the sentry and
  leaves the variable unchanged;
* a conversion that finds characters but no valid numeral stores `0`
  (for `bool`: `false`) and sets the fail flag;
* an out-of-range `uint32_t` numeral stores `4294967295` and sets the
  fail flag.

Each `read…` function takes the target variable's current value (so that
sentry failures can leave it unchanged) and returns the stored value with
the new stream.  Numeric extraction is modelled for the decimal forms used
on this wire: optional sign, digits, and for doubles an optional fraction
and exponent; hexadecimal floats and `inf`/`nan` spellings are outside the
modelled grammar and no theorem below exercises them. -/

/-- State of an `std::istringstream`: remaining characters and fail flag. -/
structure IStream where
  rest : List Char
  failed : Bool
deriving DecidableEq, Repr

/-- Make a stream over a record (istringstream constructor). -/
def IStream.ofString (s : String) : IStream :=
  { rest := s.data, failed := false }

/-- Extraction `is >> (std::string&)`: skip whitespace, then take the
maximal run of non-whitespace characters. -/
def readStr (cur : String) (st : IStream) : String × IStream :=
  if st.failed then (cur, st)
  else
    let cs := st.rest.dropWhile isStreamWs
    match cs with
    | [] => (cur, { rest := [], failed := true })
    | _ =>
      let tok := cs.takeWhile (fun c => !isStreamWs c)
      (String.mk tok, { rest := cs.dropWhile (fun c => !isStreamWs c), failed := false })

/-- Extraction `is >> (uint32_t&)`: skip whitespace, read the maximal digit
run, reduce per `num_get` range handling.  A leading sign (which `strtoul`
would accept with wrap-around) is outside the modelled grammar; the wire
never carries signed u32 fields and no theorem exercises one. -/
def readU32 (cur : Nat) (st : IStream) : Nat × IStream :=
  if st.failed then (cur, st)
  else
    let cs := st.rest.dropWhile isStreamWs
    match cs with
    | [] => (cur, { rest := [], failed := true })
    | _ =>
      let ds := cs.takeWhile Char.isDigit
      if ds.isEmpty then (0, { rest := cs, failed := true })
      else
        let v := natFromDigits ds
        let rest := cs.dropWhile Char.isDigit
        if v < 2 ^ 32 then (v, { rest := rest, failed := false })
        else (4294967295, { rest := rest, failed := true })

/-- Extraction `is >> (bool&)` without `boolalpha`: read an integer; 0 and 1
store the corresponding truth value, any other integer stores `true` and
fails, an absent integer stores `false` and fails. -/
def readBool (cur : Bool) (st : IStream) : Bool × IStream :=
  if st.failed then (cur, st)
  else
    let cs := st.rest.dropWhile isStreamWs
    match cs with
    | [] => (cur, { rest := [], failed := true })
    | _ =>
      let ds := cs.takeWhile Char.isDigit
      if ds.isEmpty then (false, { rest := cs, failed := true })
      else
        let v := natFromDigits ds
        let rest := cs.dropWhile Char.isDigit
        if v = 0 then (false, { rest := rest, failed := false })
        else if v = 1 then (true, { rest := rest, failed := false })
        else (true, { rest := rest, failed := true })

/-- Signed decimal digits read for a double: optional sign then the integer
part of the mantissa. -/
def readSign (cs : List Char) : Bool × List Char :=
  match cs with
  | '-' :: t => (true, t)
  | '+' :: t => (false, t)
  | _ => (false, cs)

/-- Extraction `is >> (double&)` restricted to decimal numerals
`[sign] digits [. digits] [e [sign] digits]`; the exponent branch is taken
only when `e`/`E` is followed by a valid exponent (the lookahead `num_get`
effectively performs on this grammar). -/
def readF64 (cur : ℚ) (st : IStream) : ℚ × IStream :=
  if st.failed then (cur, st)
  else
    let cs := st.rest.dropWhile isStreamWs
    match cs with
    | [] => (cur, { rest := [], failed := true })
    | _ =>
      let (neg, cs1) := readSign cs
      let ip := cs1.takeWhile Char.isDigit
      let cs2 := cs1.dropWhile Char.isDigit
      let (fp, cs3) :=
        match cs2 with
        | '.' :: t => (t.takeWhile Char.isDigit, t.dropWhile Char.isDigit)
        | _ => ([], cs2)
      if ip.isEmpty && fp.isEmpty then (0, { rest := cs, failed := true })
      else
        let mant : ℚ := (natFromDigits ip : ℚ) + (natFromDigits fp : ℚ) / (10 : ℚ) ^ fp.length
        let signed : ℚ := if neg then -mant else mant
        let expRead : Option (Int × List Char) :=
          match cs3 with
          | 'e' :: t =>
            let (eneg, t1) := readSign t
            let eds := t1.takeWhile Char.isDigit
            if eds.isEmpty then none
            else some ((if eneg then -(natFromDigits eds : Int) else (natFromDigits eds : Int)),
                       t1.dropWhile Char.isDigit)
          | 'E' :: t =>
            let (eneg, t1) := readSign t
            let eds := t1.takeWhile Char.isDigit
            if eds.isEmpty then none
            else some ((if eneg then -(natFromDigits eds : Int) else (natFromDigits eds : Int)),
                       t1.dropWhile Char.isDigit)
          | _ => none
        match expRead with
        | some (e, cs4) => (signed * (10 : ℚ) ^ e, { rest := cs4, failed := false })
        | none => (signed, { rest := cs3, failed := false })

/-- Model of `std::getline(iss, s)`: on a live stream with characters left,
consume up to (and including) the next newline and store the consumed
prefix; at end-of-input the sentry fails and the variable is unchanged. -/
def getlineRest (cur : String) (st : IStream) : String × IStream :=
  if st.failed then (cur, st)
  else
    match st.rest with
    | [] => (cur, { rest := [], failed := true })
    | cs =>
      let took := cs.takeWhile (fun c => c ≠ '\n')
      let after := cs.dropWhile (fun c => c ≠ '\n')
      let after2 := match after with
        | '\n' :: t => t
        | other => other
      (String.mk took, { rest := after2, failed := false })

/-- Strip one leading space, as the `patch_set`/`log`/`cc_map` branches of
`parse_feedback_line` do on the `getline` remainder. -/
def stripOneSpace (s : String) : String :=
  match s.data with
  | ' ' :: t => String.mk t
  | _ => s

/-! ## Feedback events and the parser (src/utils/parser.cpp) -/

/-- FeedbackMessage variant from `src/utils/types.h`.  The `type` string
member of each C++ struct is constant per alternative and is carried by the
constructor itself.  `PatchSet::value` is a `Json::Value` produced by
`Json::Reader::parse` on the rest of the line; the JSON library is external
to this repository, so the value is represented here by the raw text handed
to that parse call. -/
inductive FeedbackMessage where
  | paramSet (effect_id : Nat) (symbol : String) (value : ℚ)
  | audioMonitor (index : Nat) (value : ℚ)
  | outputSet (effect_id : Nat) (symbol : String) (value : ℚ)
  | midiMapped (effect_id : Nat) (symbol : String) (channel : Nat) (controller : Nat)
  | midiControlChange (channel : Nat) (control : Nat) (value : Nat)
  | midiProgramChange (program : Nat) (channel : Nat)
  | transport (rolling : Bool) (bpb : ℚ) (bpm : ℚ)
  | patchSet (instanceNum : Nat) (symbol : String) (value : String)
  | log (level : Nat) (message : String)
  | cpuLoad (load : ℚ) (max_load : ℚ) (xruns : Nat)
  | dataFinish
  | ccMap (raw : String)
  | unknown (raw : String)
deriving DecidableEq, Repr

/-- parse_feedback_line from `src/utils/parser.cpp` lines 8–105.  The C++
function returns `std::optional<FeedbackMessage>` but every control path
returns an engaged value, so the model returns `FeedbackMessage` directly.
Uninitialized numeric locals are passed as `0` current values; a current
value is only ever returned when the corresponding C++ local is still
unwritten after a failed sentry, and no theorem below depends on an input
whose C++ result would be an indeterminate (uninitialized) field.  The
`try`/`catch` wrapper of the C++ function is dead for stream extraction
(extraction reports failure through the stream state, not exceptions), so
it has no counterpart here. -/
def parseFeedbackLine (line : String) : FeedbackMessage :=
  let st0 := IStream.ofString line
  let (ty, st1) := readStr "" st0
  if ty = "param_set" then
    let (effect_id, st2) := readU32 0 st1
    let (symbol, st3) := readStr "" st2
    let (value, _) := readF64 0 st3
    .paramSet effect_id symbol value
  else if ty = "audio_monitor" then
    let (index, st2) := readU32 0 st1
    let (value, _) := readF64 0 st2
    .audioMonitor index value
  else if ty = "output_set" then
    let (effect_id, st2) := readU32 0 st1
    let (symbol, st3) := readStr "" st2
    let (value, _) := readF64 0 st3
    .outputSet effect_id symbol value
  else if ty = "midi_mapped" then
    let (effect_id, st2) := readU32 0 st1
    let (symbol, st3) := readStr "" st2
    let (channel, st4) := readU32 0 st3
    let (controller, _) := readU32 0 st4
    .midiMapped effect_id symbol channel controller
  else if ty = "midi_control_change" then
    let (channel, st2) := readU32 0 st1
    let (control, st3) := readU32 0 st2
    let (value, _) := readU32 0 st3
    .midiControlChange channel control value
  else if ty = "midi_program_change" then
    let (program, st2) := readU32 0 st1
    let (channel, _) := readU32 0 st2
    .midiProgramChange program channel
  else if ty = "transport" then
    let (rolling, st2) := readBool false st1
    let (bpb, st3) := readF64 0 st2
    let (bpm, _) := readF64 0 st3
    .transport rolling bpb bpm
  else if ty = "patch_set" then
    let (instanceNum, st2) := readU32 0 st1
    let (symbol, st3) := readStr "" st2
    let (remaining, _) := getlineRest "" st3
    .patchSet instanceNum symbol (stripOneSpace remaining)
  else if ty = "log" then
    let (level, st2) := readU32 0 st1
    let (message, _) := getlineRest "" st2
    .log level (stripOneSpace message)
  else if ty = "cpu_load" then
    let (load, st2) := readF64 0 st1
    let (max_load, st3) := readF64 0 st2
    let (xruns, _) := readU32 0 st3
    .cpuLoad load max_load xruns
  else if ty = "data_finish" then
    .dataFinish
  else if ty = "cc_map" then
    let (raw, _) := getlineRest "" st1
    .ccMap (stripOneSpace raw)
  else
    .unknown line

/-- First whitespace-delimited token of a record, exactly as the parser
extracts the leading type keyword. -/
def firstToken (line : String) : String :=
  (readStr "" (IStream.ofString line)).1

/-- The twelve type keywords the parser recognizes. -/
def recognizedTypes : List String :=
  ["param_set", "audio_monitor", "output_set", "midi_mapped",
   "midi_control_change", "midi_program_change", "transport", "patch_set",
   "log", "cpu_load", "data_finish", "cc_map"]

/-! ## Wire-line construction (spec §4.3 grammar, engine side)

Feedback records are produced by the external engine process, not by code
in this repository; the definitions below encode the §4.3 grammar table
(whitespace-separated tokens after a leading type keyword) so that the
round-trip property can be stated.  Double-typed fields are given as exact
decimal numerals. -/

/-- Character for one decimal digit value. -/
def digitCh (d : Nat) : Char :=
  match d with
  | 0 => '0' | 1 => '1' | 2 => '2' | 3 => '3' | 4 => '4'
  | 5 => '5' | 6 => '6' | 7 => '7' | 8 => '8' | _ => '9'

/-- Decimal rendering of a natural number (least-significant digit first via
`Nat.digits`, reversed into reading order). -/
def renderNat (n : Nat) : List Char :=
  if n = 0 then ['0'] else ((Nat.digits 10 n).map digitCh).reverse

/-- Fraction digits of a decimal numeral: `fp` zero-padded on the left to
`fl` digits. -/
def padDigits (fl fp : Nat) : List Char :=
  List.replicate (fl - (renderNat fp).length) '0' ++ renderNat fp

/-- One double-typed wire field, as the decimal numeral
`[-]ip.{fp padded to fl digits}`. -/
structure Decimal where
  neg : Bool
  ip : Nat
  fp : Nat
  fl : Nat
deriving DecidableEq, Repr

/-- Exact rational value of a decimal numeral. -/
def Decimal.val (d : Decimal) : ℚ :=
  let m : ℚ := (d.ip : ℚ) + (d.fp : ℚ) / (10 : ℚ) ^ d.fl
  if d.neg then -m else m

/-- Well-formedness of a decimal numeral: the fraction digits fit the
declared width. -/
def Decimal.wf (d : Decimal) : Prop :=
  d.fp < 10 ^ d.fl

/-- Characters of a decimal numeral on the wire. -/
def Decimal.render (d : Decimal) : List Char :=
  (if d.neg then ['-'] else []) ++ renderNat d.ip ++ '.' :: padDigits d.fl d.fp

/-- String-valued token fields of the grammar are single whitespace-free
nonempty tokens. -/
def isToken (s : String) : Prop :=
  s.data ≠ [] ∧ ∀ c ∈ s.data, isStreamWs c = false

instance (s : String) : Decidable (isToken s) := by
  unfold isToken; infer_instance

/-- Rest-of-line fields may hold spaces but no newline (a record is one
NUL-delimited line; `std::getline` would stop at an embedded newline). -/
def noNewline (s : String) : Prop :=
  ∀ c ∈ s.data, c ≠ '\n'

instance (s : String) : Decidable (noNewline s) := by
  unfold noNewline; infer_instance

/-- One (type, field-tuple) pair of the §4.3 grammar table. -/
inductive WireRecord where
  | paramSet (effect_id : Nat) (symbol : String) (value : Decimal)
  | audioMonitor (index : Nat) (value : Decimal)
  | outputSet (effect_id : Nat) (symbol : String) (value : Decimal)
  | midiMapped (effect_id : Nat) (symbol : String) (channel : Nat) (controller : Nat)
  | midiControlChange (channel : Nat) (control : Nat) (value : Nat)
  | midiProgramChange (program : Nat) (channel : Nat)
  | transport (rolling : Bool) (bpb : Decimal) (bpm : Decimal)
  | patchSet (instanceNum : Nat) (symbol : String) (jsonText : String)
  | log (level : Nat) (message : String)
  | cpuLoad (load : Decimal) (max_load : Decimal) (xruns : Nat)
  | dataFinish
  | ccMap (raw : String)
deriving DecidableEq, Repr

/-- Field-tuple constraints under which the grammar line is unambiguous:
u32 fields fit 32 bits, symbol fields are single tokens, decimal fields are
well-formed, rest-of-line fields carry no newline. -/
def WireRecord.wf : WireRecord → Prop
  | .paramSet e s v => e < 2 ^ 32 ∧ isToken s ∧ v.wf
  | .audioMonitor i v => i < 2 ^ 32 ∧ v.wf
  | .outputSet e s v => e < 2 ^ 32 ∧ isToken s ∧ v.wf
  | .midiMapped e s ch co => e < 2 ^ 32 ∧ isToken s ∧ ch < 2 ^ 32 ∧ co < 2 ^ 32
  | .midiControlChange ch co v => ch < 2 ^ 32 ∧ co < 2 ^ 32 ∧ v < 2 ^ 32
  | .midiProgramChange p ch => p < 2 ^ 32 ∧ ch < 2 ^ 32
  | .transport _ b p => b.wf ∧ p.wf
  | .patchSet i s j => i < 2 ^ 32 ∧ isToken s ∧ noNewline j
  | .log l m => l < 2 ^ 32 ∧ noNewline m
  | .cpuLoad l m x => l.wf ∧ m.wf ∧ x < 2 ^ 32
  | .dataFinish => True
  | .ccMap r => noNewline r

/-- Wire line for a field tuple, per the §4.3 table: the type keyword then
the fields separated by single spaces; booleans as `1`/`0`; the trailing
rest-of-line fields after one separating space. -/
def WireRecord.toLine : WireRecord → String
  | .paramSet e s v =>
    "param_set " ++ String.mk (renderNat e) ++ " " ++ s ++ " " ++ String.mk v.render
  | .audioMonitor i v =>
    "audio_monitor " ++ String.mk (renderNat i) ++ " " ++ String.mk v.render
  | .outputSet e s v =>
    "output_set " ++ String.mk (renderNat e) ++ " " ++ s ++ " " ++ String.mk v.render
  | .midiMapped e s ch co =>
    "midi_mapped " ++ String.mk (renderNat e) ++ " " ++ s ++ " " ++
      String.mk (renderNat ch) ++ " " ++ String.mk (renderNat co)
  | .midiControlChange ch co v =>
    "midi_control_change " ++ String.mk (renderNat ch) ++ " " ++
      String.mk (renderNat co) ++ " " ++ String.mk (renderNat v)
  | .midiProgramChange p ch =>
    "midi_program_change " ++ String.mk (renderNat p) ++ " " ++ String.mk (renderNat ch)
  | .transport r b p =>
    "transport " ++ (if r then "1" else "0") ++ " " ++ String.mk b.render ++ " " ++
      String.mk p.render
  | .patchSet i s j =>
    "patch_set " ++ String.mk (renderNat i) ++ " " ++ s ++ " " ++ j
  | .log l m =>
    "log " ++ String.mk (renderNat l) ++ " " ++ m
  | .cpuLoad l m x =>
    "cpu_load " ++ String.mk l.render ++ " " ++ String.mk m.render ++ " " ++
      String.mk (renderNat x)
  | .dataFinish => "data_finish"
  | .ccMap r => "cc_map " ++ r

/-- Event the parser is expected to produce for a field tuple (the tuple
itself, with decimal fields taken at their rational values). -/
def WireRecord.toEvent : WireRecord → FeedbackMessage
  | .paramSet e s v => .paramSet e s v.val
  | .audioMonitor i v => .audioMonitor i v.val
  | .outputSet e s v => .outputSet e s v.val
  | .midiMapped e s ch co => .midiMapped e s ch co
  | .midiControlChange ch co v => .midiControlChange ch co v
  | .midiProgramChange p ch => .midiProgramChange p ch
  | .transport r b p => .transport r b.val p.val
  | .patchSet i s j => .patchSet i s j
  | .log l m => .log l m
  | .cpuLoad l m x => .cpuLoad l.val m.val x
  | .dataFinish => .dataFinish
  | .ccMap r => .ccMap r

/-! ## Command service (src/command_service.cpp) -/

/-- Fragment of `Json::Value` sufficient for the legacy command path of
`CommandService::service_loop`: a default-constructed value is null, and
`to_json(CommandResponse)` only ever builds flat objects whose members are
strings. -/
inductive JVal where
  | jnull
  | jstr (s : String)
  | jobjStr (fields : List (String × String))
deriving DecidableEq, Repr

/-- CommandRequest variant from `src/utils/types.h` (RawCommand or
StructuredCommand). -/
inductive CommandRequest where
  | raw (command : String)
  | structured (name : String) (args : List String)
deriving DecidableEq, Repr

/-- CommandResponse variant from `src/utils/types.h` (CommandSuccess with
`status` and `raw` members, or CommandError). -/
inductive CommandResponse where
  | success (status : String) (raw : String)
  | error (error : String)
deriving DecidableEq, Repr

/-- to_json(const CommandResponse&) from `src/utils/types.cpp` lines
91–103. -/
def toJsonCommandResponse : CommandResponse → JVal
  | .success status raw => .jobjStr [("status", status), ("raw", raw)]
  | .error e => .jobjStr [("error", e)]

/-- CommandService::process_command from `src/command_service.cpp` lines
138–163: extract the raw command (or join name and args with spaces), send
it to the engine, and build the success object (both members set to the
response body, `CommandSuccess{*result, *result}`) or the error object. -/
def process_command (request : CommandRequest) (engine : String → Option String) : JVal :=
  let command :=
    match request with
    | .raw c => c
    | .structured name args => args.foldl (fun acc arg => acc ++ " " ++ arg) name
  match engine command with
  | some result => toJsonCommandResponse (.success result result)
  | none => toJsonCommandResponse (.error "Failed to communicate with mod-host")

/-- Response the REP socket actually sends back for a legacy request, per
CommandService::service_loop lines 80–113: the outer `json_resp` declared at
line 80 is default-constructed (null); line 104 declares a NEW `json_resp`
inside the legacy else-branch, which shadows the outer variable, so the
object computed by `process_command` never reaches the serialization at
lines 108–109 and the outer (null) value is sent instead. -/
def serviceLegacyResponse (request : CommandRequest) (engine : String → Option String) :
    JVal :=
  let json_resp : JVal := .jnull
  let _shadowing_json_resp : JVal := process_command request engine
  json_resp

/-- Bytes of a string, for stating wire-level properties. -/
def strBytes (s : String) : List Nat :=
  s.data.map Char.toNat

/-- Characters contributed by a `const char*` C string when appended to a
`std::string` with `operator+`: everything before the first NUL
terminator. -/
def cStringChars (bytes : List Nat) : List Nat :=
  bytes.takeWhile (fun b => b ≠ 0)

/-- Bytes in memory of the C string literal `"\0"`: its escaped NUL
character followed by the implicit NUL terminator. -/
def nulLiteralBytes : List Nat :=
  [0, 0]

/-- Payload assembled by `CommandService::send_to_modhost` line 348 (and
identically `PluginManager::send_to_modhost` line 757):
`std::string payload = command + "\0";` — appending the literal through its
`const char*` overload contributes the characters before its first NUL,
i.e. nothing. -/
def modhostPayloadBytes (command : List Nat) : List Nat :=
  command ++ cStringChars nulLiteralBytes

/-- Bytes written on the fresh TCP connection by `send_to_modhost`:
`send(sock, payload.c_str(), payload.size(), 0)` writes exactly the payload
bytes (lines 349 / 758). -/
def sendToModhostWireBytes (command : List Nat) : List Nat :=
  modhostPayloadBytes command

/-! ## Plugin data model (src/utils/types.h)

`std::unordered_map` members are modelled as association lists (iteration
order of the C++ container is unspecified; the claims below are
order-insensitive).  Double-typed members are exact rationals.  Members the
verified operations never consult (port value ranges, units, property
flags, scale points, preset lists, the `created_at` wall-clock timestamp)
are omitted. -/

/-- PluginAuthor from `src/utils/types.h`. -/
structure PluginAuthor where
  name : String
  homepage : String
  email : String
deriving DecidableEq, Repr

/-- PluginPort from `src/utils/types.h` (identifying members). -/
structure PluginPort where
  index : Nat
  name : String
  symbol : String
deriving DecidableEq, Repr

/-- PluginPorts from `src/utils/types.h`: eight direction×kind lists. -/
structure PluginPorts where
  audio_inputs : List PluginPort
  audio_outputs : List PluginPort
  control_inputs : List PluginPort
  control_outputs : List PluginPort
  cv_inputs : List PluginPort
  cv_outputs : List PluginPort
  midi_inputs : List PluginPort
  midi_outputs : List PluginPort
deriving DecidableEq, Repr

/-- Port set with no ports. -/
def PluginPorts.empty : PluginPorts :=
  ⟨[], [], [], [], [], [], [], []⟩

/-- PluginInfo from `src/utils/types.h`. -/
structure PluginInfo where
  uri : String
  name : String
  brand : String
  label : String
  comment : String
  build_environment : String
  version : String
  license : String
  category : List String
  author : PluginAuthor
  ports : PluginPorts
deriving DecidableEq, Repr

/-- catalog `std::unordered_map<std::string, PluginInfo>` as an association
list keyed by URI. -/
abbrev Catalog := List (String × PluginInfo)

/-- Association-list lookup (`map.find(key)` returning the mapped value when
present). -/
def assocFind {α : Type} (m : List (String × α)) (k : String) : Option α :=
  (m.find? (fun p => p.1 == k)).map (·.2)

/-- Association-list insert-or-assign (`map[key] = value`). -/
def assocInsert {α : Type} (m : List (String × α)) (k : String) (v : α) :
    List (String × α) :=
  if m.any (fun p => p.1 == k) then m.map (fun p => if p.1 == k then (k, v) else p)
  else m ++ [(k, v)]

/-- PluginSearchCriteria from `src/utils/types.h` lines 119–129, with its
member initializers as Lean default values. -/
structure PluginSearchCriteria where
  category : String := ""
  author : String := ""
  min_audio_inputs : Int := -1
  min_audio_outputs : Int := -1
  max_audio_inputs : Int := -1
  max_audio_outputs : Int := -1
  requires_realtime : Bool := false
  has_parameter : String := ""
  required_features : List String := []
deriving DecidableEq, Repr

/-- PluginSearchEngine::matchesCriteria from
`src/plugins/plugin_search_engine.cpp` lines 104–154: category and author
case-insensitive substring checks, then the four audio port-count bound
checks.  The `requires_realtime`, `has_parameter` and `required_features`
members are not consulted (the source removed those checks, lines
150–151). -/
def matchesCriteria (plugin : PluginInfo) (criteria : PluginSearchCriteria) : Bool :=
  (if criteria.category.isEmpty then true
   else plugin.category.any (fun cat =>
     containsSub (toLowerStr cat) (toLowerStr criteria.category))) &&
  (criteria.author.isEmpty ||
    containsSub (toLowerStr plugin.author.name) (toLowerStr criteria.author)) &&
  (if 0 < criteria.min_audio_inputs ∧
      (plugin.ports.audio_inputs.length : Int) < criteria.min_audio_inputs
   then false else true) &&
  (if 0 < criteria.min_audio_outputs ∧
      (plugin.ports.audio_outputs.length : Int) < criteria.min_audio_outputs
   then false else true) &&
  (if 0 ≤ criteria.max_audio_inputs ∧
      criteria.max_audio_inputs < (plugin.ports.audio_inputs.length : Int)
   then false else true) &&
  (if 0 ≤ criteria.max_audio_outputs ∧
      criteria.max_audio_outputs < (plugin.ports.audio_outputs.length : Int)
   then false else true)

/-- PluginSearchEngine::filterPlugins from
`src/plugins/plugin_search_engine.cpp` lines 44–59: keep the catalog
entries matching the criteria. -/
def filterPlugins (criteria : PluginSearchCriteria) (plugins : Catalog) :
    List PluginInfo :=
  (plugins.filter (fun p => matchesCriteria p.2 criteria)).map (·.2)

/-- PluginSearchEngine::matchesQuery from
`src/plugins/plugin_search_engine.cpp` lines 89–96. -/
def matchesQuery (plugin : PluginInfo) (lowerQuery : String) : Bool :=
  containsSub
    (toLowerStr (plugin.name ++ " " ++ plugin.author.name ++ " " ++
      plugin.comment ++ " " ++ plugin.uri))
    lowerQuery

/-- PluginSearchEngine::searchByText from
`src/plugins/plugin_search_engine.cpp` lines 16–42. -/
def searchByText (query : String) (plugins : Catalog) : List PluginInfo :=
  if query.isEmpty then plugins.map (·.2)
  else (plugins.filter (fun p => matchesQuery p.2 (toLowerStr query))).map (·.2)

/-- SearchPluginsRequest from `src/utils/types.h`. -/
structure SearchPluginsRequest where
  query : String
  criteria : Option PluginSearchCriteria
deriving DecidableEq, Repr

/-- PluginManager::process_search_plugins from
`src/plugins/plugin_manager.cpp` lines 378–401. -/
def process_search_plugins (req : SearchPluginsRequest) (available : Catalog) :
    List PluginInfo :=
  match req.criteria with
  | some criteria => filterPlugins criteria available
  | none =>
    if !req.query.isEmpty then searchByText req.query available
    else available.map (·.2)

/-- Spec-side has_parameter criterion, for comparison with the source
filter.  Modelled from the spec: §3 PluginSearchCriteria names "an optional
required-parameter-symbol substring" and §4.4 search_plugins filters by
"all its set fields (case-insensitive substring on
category/author/parameter)" — a set has_parameter field requires some
control port whose symbol contains the given substring
case-insensitively. -/
def specHasParameterOk (plugin : PluginInfo) (criteria : PluginSearchCriteria) : Bool :=
  criteria.has_parameter.isEmpty ||
  (plugin.ports.control_inputs ++ plugin.ports.control_outputs).any (fun port =>
    containsSub (toLowerStr port.symbol) (toLowerStr criteria.has_parameter))

/-! ## Plugin registry operations (src/plugins/plugin_manager.cpp) -/

/-- ValidationResult from `src/utils/types.h`. -/
structure ValidationResult where
  is_valid : Bool
  error_message : String
deriving DecidableEq, Repr

/-- Lifecycle events published by PluginManager::publish_event (the
`timestamp` envelope member is wall-clock time and is omitted). -/
inductive BridgeEvent where
  | pluginLoaded (instance_id : String) (uri : String) (name : String)
  | pluginUnloaded (instance_id : String) (uri : String)
  | parameterChanged (instance_id : String) (parameter : String) (value : ℚ)
  | pluginsRescanned (plugin_count : Nat)
deriving DecidableEq, Repr

/-- Scan-and-fetch pipeline inside the `try` block of
PluginManager::rescan_plugins lines 620–633: the mini scan yields URIs and
each URI's detailed info is fetched; an exception from either adapter call
(modelled as `Except.error`) aborts the whole pipeline. -/
def rescanFetch (scanRes : Except String (List String))
    (infoFn : String → Except String (Option PluginInfo)) :
    Except String (List (String × Option PluginInfo)) := do
  let uris ← scanRes
  uris.mapM (fun uri => do
    let detailed ← infoFn uri
    pure (uri, detailed))

/-- PluginManager::rescan_plugins from `src/plugins/plugin_manager.cpp`
lines 612–661: on a completed pipeline, drop URIs with no detailed info,
keep entries the validator accepts, replace the catalog and publish one
`plugins_rescanned` event; a pipeline exception is caught at line 658 after
logging, leaving the catalog untouched and publishing nothing. -/
def rescan_plugins (available : Catalog) (scanRes : Except String (List String))
    (infoFn : String → Except String (Option PluginInfo))
    (validator : PluginInfo → ValidationResult) :
    Catalog × List BridgeEvent :=
  match rescanFetch scanRes infoFn with
  | .error _ => (available, [])
  | .ok fetched =>
    let new_plugins := fetched.filterMap (fun p => p.2.map (fun d => (p.1, d)))
    let validated_plugins := new_plugins.filter (fun p => (validator p.2).is_valid)
    (validated_plugins, [.pluginsRescanned validated_plugins.length])

/-- RescanPluginsResponse from `src/utils/types.h` (plugins_added and
plugins_removed are C++ `int`, hence `Int`). -/
structure RescanPluginsResponse where
  status : String
  plugins_added : Int
  plugins_removed : Int
deriving DecidableEq, Repr

/-- PluginManager::process_rescan_plugins from
`src/plugins/plugin_manager.cpp` lines 463–480: record the catalog size,
rescan, and report the signed size differences. -/
def process_rescan_plugins (available : Catalog) (scanRes : Except String (List String))
    (infoFn : String → Except String (Option PluginInfo))
    (validator : PluginInfo → ValidationResult) :
    Catalog × List BridgeEvent × RescanPluginsResponse :=
  let old_count : Int := available.length
  let res := rescan_plugins available scanRes infoFn validator
  let new_count : Int := res.1.length
  (res.1, res.2,
   { status := "ok", plugins_added := new_count - old_count,
     plugins_removed := old_count - new_count })

/-- Number of URIs present in the new catalog but not the prior one
(spec §4.4: the added count "versus the prior catalog"). -/
def specAddedCount (oldCat newCat : Catalog) : Nat :=
  (newCat.filter (fun p => !(oldCat.any (fun q => q.1 == p.1)))).length

/-- Number of URIs present in the prior catalog but not the new one
(spec §4.4: the removed count "versus the prior catalog"). -/
def specRemovedCount (oldCat newCat : Catalog) : Nat :=
  (oldCat.filter (fun p => !(newCat.any (fun q => q.1 == p.1)))).length

/-- PluginInstance from `src/utils/types.h` (plus the `host_instance`
member the manager assigns at line 217). -/
structure PluginInstance where
  uri : String
  instance_id : String
  name : String
  brand : String
  version : String
  parameters : List (String × ℚ)
  ports : PluginPorts
  x : ℚ
  y : ℚ
  enabled : Bool
  preset : String
  host_instance : Option Int
deriving DecidableEq, Repr

/-- instances `std::unordered_map<std::string, PluginInstance>` as an
association list keyed by instance_id. -/
abbrev InstanceMap := List (String × PluginInstance)

/-- LoadPluginRequest from `src/utils/types.h`. -/
structure LoadPluginRequest where
  uri : String
  x : ℚ := 0
  y : ℚ := 0
  parameters : List (String × ℚ) := []
deriving DecidableEq, Repr

/-- LoadPluginResponse from `src/utils/types.h`. -/
structure LoadPluginResponse where
  instance_id : String
  plugin : PluginInstance
deriving DecidableEq, Repr

/-- Model of `std::stoi`: skip leading whitespace, optional sign, then a
nonempty digit run (parsing stops at the first non-digit); no conversion or
an out-of-int-range value throws, modelled as `none`. -/
def cppStoi (s : String) : Option Int :=
  let cs := s.data.dropWhile isStreamWs
  let (neg, cs1) := readSign cs
  let ds := cs1.takeWhile Char.isDigit
  if ds.isEmpty then none
  else
    let v : Int := if neg then -(natFromDigits ds : Int) else (natFromDigits ds : Int)
    if v < -2147483648 ∨ 2147483647 < v then none else some v

/-- First position of `needle` inside `hay`
(`std::string::find`, `npos` as `none`). -/
def listFindSub (hay needle : List Char) : Option Nat :=
  match hay with
  | [] => if needle.isEmpty then some 0 else none
  | c :: t =>
    if needle.isPrefixOf (c :: t) then some 0
    else (listFindSub t needle).map (· + 1)

/-- Response trimming in PluginManager::process_load_plugin lines 186–191:
drop everything through the first occurrence of `"resp "` when present. -/
def stripRespPrefix (resp : String) : String :=
  match listFindSub resp.data ("resp ".data) with
  | some pos => String.mk (resp.data.drop (pos + 5))
  | none => resp

/-- Parsing of the engine's reply to `add`, lines 183–203: strip the
`resp ` prefix, `std::stoi` the remainder, and treat a negative value as an
engine error.  The negative branch throws inside the same `try` whose catch
rethrows, so an unparseable integer and a negative code surface as the same
failure. -/
def parseAddResponse (result : String) : Option Int :=
  match cppStoi (stripRespPrefix result) with
  | none => none
  | some n => if n < 0 then none else some n

/-- Decimal rendering of `std::to_string(double)` (`%f`, six fractional
digits).  The exact printf rounding mode is not modelled; no theorem below
inspects the numeral this produces — it only feeds the opaque engine
function. -/
def cppToStringF64 (q : ℚ) : String :=
  let neg := q < 0
  let n := (Int.floor (|q| * 1000000 + 1 / 2)).toNat
  (if neg then "-" else "") ++ String.mk (renderNat (n / 1000000)) ++ "." ++
    String.mk (padDigits 6 (n % 1000000))

/-- PluginManager::process_load_plugin from `src/plugins/plugin_manager.cpp`
lines 159–242.  `generate_instance_id` draws random hex digits and the
numeric instance comes from a static counter, so both are taken as
arguments; every `send_to_modhost` call goes through the `engine` function.
The initial per-parameter `param_set` sends of lines 224–227 are best-effort
with results discarded, so in a pure model they contribute nothing;
`instance.parameters` was already set to the request's parameter map at
line 212, before those sends.  Exceptions (`throw std::runtime_error`)
become the `Except.error` component; the instance map and the published
events are returned alongside so state preservation on failure is
explicit. -/
def process_load_plugin (available : Catalog) (instances : InstanceMap)
    (engine : String → Option String) (req : LoadPluginRequest)
    (instance_id : String) (numeric_instance : Int) :
    InstanceMap × List BridgeEvent × Except String LoadPluginResponse :=
  match assocFind available req.uri with
  | none => (instances, [], .error ("Plugin not found: " ++ req.uri))
  | some plugin_info =>
    match engine ("add " ++ req.uri ++ " " ++ toString numeric_instance) with
    | none => (instances, [], .error "Failed to add plugin to mod-host")
    | some result =>
      match parseAddResponse result with
      | none => (instances, [], .error "Failed to parse mod-host response")
      | some returned_instance =>
        -- the source local is named `instance`, a reserved word here
        let inst : PluginInstance :=
          { uri := req.uri, instance_id := instance_id, name := plugin_info.name,
            brand := plugin_info.brand, version := plugin_info.version,
            parameters := req.parameters, ports := plugin_info.ports,
            x := req.x, y := req.y, enabled := true, preset := "",
            host_instance := some returned_instance }
        let instances2 := assocInsert instances instance_id inst
        (instances2, [.pluginLoaded instance_id req.uri inst.name],
         .ok { instance_id := instance_id, plugin := inst })

/-- SetParameterRequest from `src/utils/types.h`. -/
structure SetParameterRequest where
  instance_id : String
  parameter : String
  value : ℚ
deriving DecidableEq, Repr

/-- SetParameterResponse from `src/utils/types.h`. -/
structure SetParameterResponse where
  status : String
  value : ℚ
deriving DecidableEq, Repr

/-- PluginManager::process_set_parameter from
`src/plugins/plugin_manager.cpp` lines 274–303: look the instance up, send
`param_set` to the engine, and only on success update the local parameter
map and publish `parameter_changed`. -/
def process_set_parameter (instances : InstanceMap) (engine : String → Option String)
    (req : SetParameterRequest) :
    InstanceMap × List BridgeEvent × Except String SetParameterResponse :=
  match assocFind instances req.instance_id with
  | none => (instances, [], .error ("Plugin instance not found: " ++ req.instance_id))
  | some inst =>
    match engine ("param_set " ++ req.instance_id ++ " " ++ req.parameter ++ " " ++
        cppToStringF64 req.value) with
    | none => (instances, [], .error "Failed to set parameter in mod-host")
    | some _ =>
      let inst2 := { inst with
        parameters := assocInsert inst.parameters req.parameter req.value }
      (assocInsert instances req.instance_id inst2,
       [.parameterChanged req.instance_id req.parameter req.value],
       .ok { status := "ok", value := req.value })

/-- Bridge-level handling of one NUL-terminated feedback record, per
FeedbackReader::reader_loop `src/core/feedback_reader.cpp` lines 84–113:
the record is parsed and the resulting event is (best-effort) published.
The reader holds references to the ZMQ publish socket and the health state
only — it has no reference to the PluginManager — so the registry's
instance map is neither consulted nor written; the combined step therefore
returns it unchanged next to the parsed event. -/
def feedbackRecordStep (instances : InstanceMap) (line : String) :
    InstanceMap × FeedbackMessage :=
  (instances, parseFeedbackLine line)

/-! ## Concrete sample data used by counterexamples and witnesses -/

/-- Minimal catalog entry for a given URI (no ports, one category). -/
def mkPluginInfo (uri : String) : PluginInfo :=
  { uri := uri, name := "Sample " ++ uri, brand := "", label := "", comment := "",
    build_environment := "", version := "1.0", license := "",
    category := ["Reverb"], author := { name := "Ann", homepage := "", email := "" },
    ports := PluginPorts.empty }

/-- A loaded instance with engine_instance 7 and one stored parameter
`gain ↦ 5`. -/
def sampleInstance : PluginInstance :=
  { uri := "uriA", instance_id := "i1", name := "A", brand := "", version := "",
    parameters := [("gain", 5)], ports := PluginPorts.empty,
    x := 0, y := 0, enabled := true, preset := "", host_instance := some 7 }

/-! ## Helper lemmas -/

theorem derivedStatus_ne_starting (c f : Bool) : derivedStatus c f ≠ .starting := by
  cases c <;> cases f <;> simp [derivedStatus]

theorem applyUpdate_status_eq (s : HealthState) (u : HealthUpdate) :
    (s.applyUpdate u).status =
      derivedStatus (s.applyUpdate u).command_connected
        (s.applyUpdate u).feedback_connected := by
  cases u <;>
    simp [HealthState.applyUpdate, HealthState.update_command_connection,
      HealthState.update_feedback_connection, HealthState.update_overall_status,
      derivedStatus]

theorem health_applyUpdates_aux (us : List HealthUpdate) :
    ∀ s : HealthState, us ≠ [] →
      (HealthState.applyUpdates s us).status =
        derivedStatus (HealthState.applyUpdates s us).command_connected
          (HealthState.applyUpdates s us).feedback_connected ∧
      (HealthState.applyUpdates s us).status ≠ .starting := by
  induction us with
  | nil => intro s h; exact absurd rfl h
  | cons u rest ih =>
    intro s _
    have hstep : HealthState.applyUpdates s (u :: rest) =
        HealthState.applyUpdates (s.applyUpdate u) rest := rfl
    cases rest with
    | nil =>
      rw [hstep]
      simp only [HealthState.applyUpdates, List.foldl]
      have h1 := applyUpdate_status_eq s u
      exact ⟨h1, by rw [h1]; exact derivedStatus_ne_starting _ _⟩
    | cons u2 r2 =>
      rw [hstep]
      exact ih (s.applyUpdate u) (by simp)

theorem assocFind_assocInsert_self {α : Type} (m : List (String × α)) (k : String)
    (v : α) : assocFind (assocInsert m k v) k = some v := by
  unfold assocInsert
  split
  case isTrue h =>
    unfold assocFind
    induction m with
    | nil => simp at h
    | cons p t ih =>
      by_cases hp : p.1 == k
      · simp [List.find?, hp]
      · have ht : t.any (fun q => q.1 == k) = true := by
          simp only [List.any_cons, Bool.or_eq_true] at h
          rcases h with h | h
          · exact absurd h hp
          · exact h
        simpa [List.find?, hp] using ih ht
  case isFalse h =>
    unfold assocFind
    have hany : m.any (fun p => p.1 == k) = false :=
      Bool.eq_false_iff.mpr h
    have hfind : m.find? (fun p => p.1 == k) = none := by
      rw [List.find?_eq_none]
      intro p hp hpk
      have htrue : m.any (fun q => q.1 == k) = true :=
        List.any_eq_true.mpr ⟨p, hp, hpk⟩
      rw [hany] at htrue
      exact Bool.false_ne_true htrue
    rw [List.find?_append, hfind]
    simp [List.find?]

theorem string_isEmpty_iff {s : String} : s.isEmpty = true ↔ s = "" := by
  constructor
  · intro h
    cases s with
    | mk data =>
      cases data with
      | nil => rfl
      | cons c t =>
        exfalso
        have hz : String.utf8Len t + c.utf8Size = 0 := by
          simpa [String.isEmpty, String.endPos, String.utf8ByteSize,
            String.Pos.ext_iff] using h
        have hpos := Char.utf8Size_pos c
        omega
  · rintro rfl
    rfl

/-! ## Lemmas about streams, digits and rendering (toward the parser
round-trip) -/

theorem takeWhile_append_all {p : Char → Bool} (xs ys : List Char)
    (hx : ∀ c ∈ xs, p c = true)
    (hy : ys = [] ∨ ∃ c t, ys = c :: t ∧ p c = false) :
    (xs ++ ys).takeWhile p = xs ∧ (xs ++ ys).dropWhile p = ys := by
  induction xs with
  | nil =>
    rcases hy with rfl | ⟨c, t, rfl, hc⟩
    · simp
    · simp [List.takeWhile_cons, List.dropWhile_cons, hc]
  | cons a as ih =>
    have ha : p a = true := hx a (List.mem_cons_self a as)
    have ih2 := ih (fun c hc => hx c (List.mem_cons_of_mem a hc))
    simp only [List.cons_append, List.takeWhile_cons, List.dropWhile_cons, ha,
      if_true, ih2.1, ih2.2, and_self]

theorem dropWhile_cons_neg {p : Char → Bool} {c : Char} (t : List Char)
    (hc : p c = false) : (c :: t).dropWhile p = c :: t := by
  simp [List.dropWhile_cons, hc]

theorem isDigit_not_ws {c : Char} (h : c.isDigit = true) : isStreamWs c = false := by
  by_contra hws
  rw [Bool.not_eq_false] at hws
  unfold isStreamWs at hws
  simp only [Bool.or_eq_true, decide_eq_true_eq] at hws
  rcases hws with ((((h1 | h1) | h1) | h1) | h1) | h1 <;>
    (subst h1; exact absurd h (by decide))

theorem digitCh_isDigit {d : Nat} (h : d < 10) : (digitCh d).isDigit = true := by
  interval_cases d <;> decide

theorem digitCh_toNat {d : Nat} (h : d < 10) : (digitCh d).toNat - 48 = d := by
  interval_cases d <;> decide

theorem renderNat_all_digits (n : Nat) : ∀ c ∈ renderNat n, c.isDigit = true := by
  intro c hc
  unfold renderNat at hc
  split at hc
  · simp at hc
    subst hc
    decide
  · simp only [List.mem_reverse, List.mem_map] at hc
    obtain ⟨d, hd, rfl⟩ := hc
    exact digitCh_isDigit (Nat.digits_lt_base (by norm_num) hd)

theorem renderNat_ne_nil (n : Nat) : renderNat n ≠ [] := by
  unfold renderNat
  split
  · simp
  · simp only [ne_eq, List.reverse_eq_nil_iff, List.map_eq_nil_iff]
    exact Nat.digits_ne_nil_iff_ne_zero.mpr (by assumption)

theorem natFromDigits_append (xs ys : List Char) :
    natFromDigits (xs ++ ys) =
      (ys.foldl (fun a c => 10 * a + (c.toNat - 48)) (natFromDigits xs)) := by
  unfold natFromDigits
  rw [List.foldl_append]

theorem natFromDigits_reverse_map (L : List Nat) (h : ∀ d ∈ L, d < 10) :
    natFromDigits ((L.map digitCh).reverse) = Nat.ofDigits 10 L := by
  induction L with
  | nil => simp [natFromDigits, Nat.ofDigits]
  | cons d t ih =>
    have hd : d < 10 := h d (List.mem_cons_self d t)
    have ih2 := ih (fun x hx => h x (List.mem_cons_of_mem d hx))
    rw [List.map_cons, List.reverse_cons, natFromDigits_append]
    simp only [List.foldl_cons, List.foldl_nil]
    rw [ih2, digitCh_toNat hd, Nat.ofDigits_cons]
    ring

theorem natFromDigits_renderNat (n : Nat) : natFromDigits (renderNat n) = n := by
  unfold renderNat
  split
  case isTrue h => subst h; decide
  case isFalse h =>
    rw [natFromDigits_reverse_map _ (fun d hd => Nat.digits_lt_base (by norm_num) hd),
      Nat.ofDigits_digits]

theorem padDigits_all_digits (fl fp : Nat) :
    ∀ c ∈ padDigits fl fp, c.isDigit = true := by
  intro c hc
  unfold padDigits at hc
  rw [List.mem_append] at hc
  rcases hc with hc | hc
  · rw [List.eq_of_mem_replicate hc]
    decide
  · exact renderNat_all_digits fp c hc

theorem natFromDigits_padDigits (fl fp : Nat) :
    natFromDigits (padDigits fl fp) = fp := by
  unfold padDigits
  rw [natFromDigits_append]
  have hz : natFromDigits (List.replicate (fl - (renderNat fp).length) '0') = 0 := by
    generalize fl - (renderNat fp).length = k
    induction k with
    | zero => rfl
    | succ k ihk =>
      rw [List.replicate_succ]
      unfold natFromDigits at ihk ⊢
      simpa using ihk
  rw [hz]
  exact natFromDigits_renderNat fp

theorem renderNat_length_le {fp fl : Nat} (h : fp < 10 ^ fl) (hfp : fp ≠ 0) :
    (renderNat fp).length ≤ fl := by
  unfold renderNat
  rw [if_neg hfp]
  simp only [List.length_reverse, List.length_map]
  by_contra hlt
  push_neg at hlt
  have h1 : 10 ^ (Nat.digits 10 fp).length ≤ 10 * fp :=
    Nat.base_pow_length_digits_le 10 fp (by norm_num) hfp
  have h2 : 10 ^ (fl + 1) ≤ 10 ^ (Nat.digits 10 fp).length :=
    Nat.pow_le_pow_right (by norm_num) hlt
  have h3 : 10 * 10 ^ fl ≤ 10 * fp := by
    calc 10 * 10 ^ fl = 10 ^ (fl + 1) := by ring
    _ ≤ 10 ^ (Nat.digits 10 fp).length := h2
    _ ≤ 10 * fp := h1
  omega

theorem padDigits_length {fl fp : Nat} (h : fp < 10 ^ fl) (hfp : fp ≠ 0) :
    (padDigits fl fp).length = fl := by
  unfold padDigits
  rw [List.length_append, List.length_replicate]
  have := renderNat_length_le h hfp
  omega

theorem padDigits_val {fl fp : Nat} (h : fp < 10 ^ fl) :
    (natFromDigits (padDigits fl fp) : ℚ) / (10 : ℚ) ^ (padDigits fl fp).length =
      (fp : ℚ) / (10 : ℚ) ^ fl := by
  rcases eq_or_ne fp 0 with rfl | hfp
  · rw [natFromDigits_padDigits]
    simp
  · rw [natFromDigits_padDigits, padDigits_length h hfp]

theorem spaceBoundary_bang {rest : List Char}
    (hrest : rest = [] ∨ ∃ t, rest = ' ' :: t) :
    rest = [] ∨ ∃ c t, rest = c :: t ∧ (!isStreamWs c) = false := by
  rcases hrest with rfl | ⟨t, rfl⟩
  · exact Or.inl rfl
  · exact Or.inr ⟨' ', t, rfl, by decide⟩

theorem spaceBoundary_digit {rest : List Char}
    (hrest : rest = [] ∨ ∃ t, rest = ' ' :: t) :
    rest = [] ∨ ∃ c t, rest = c :: t ∧ Char.isDigit c = false := by
  rcases hrest with rfl | ⟨t, rfl⟩
  · exact Or.inl rfl
  · exact Or.inr ⟨' ', t, rfl, by decide⟩

theorem readStr_spec (tok rest : List Char) (cur : String)
    (htok : tok ≠ []) (hall : ∀ c ∈ tok, isStreamWs c = false)
    (hrest : rest = [] ∨ ∃ t, rest = ' ' :: t) :
    readStr cur ⟨tok ++ rest, false⟩ = (String.mk tok, ⟨rest, false⟩) := by
  obtain ⟨c, t, rfl⟩ : ∃ c t, tok = c :: t := by
    cases tok with
    | nil => exact absurd rfl htok
    | cons c t => exact ⟨c, t, rfl⟩
  have hc : isStreamWs c = false := hall c (List.mem_cons_self c t)
  have hsplit := takeWhile_append_all (p := fun x => !isStreamWs x) (c :: t) rest
    (fun x hx => by simp [hall x hx]) (spaceBoundary_bang hrest)
  simp only [List.cons_append] at hsplit
  rw [readStr]
  simp [dropWhile_cons_neg _ hc, hsplit.1, hsplit.2]

theorem readStr_space_spec (tok rest : List Char) (cur : String)
    (htok : tok ≠ []) (hall : ∀ c ∈ tok, isStreamWs c = false)
    (hrest : rest = [] ∨ ∃ t, rest = ' ' :: t) :
    readStr cur ⟨' ' :: (tok ++ rest), false⟩ = (String.mk tok, ⟨rest, false⟩) := by
  obtain ⟨c, t, rfl⟩ : ∃ c t, tok = c :: t := by
    cases tok with
    | nil => exact absurd rfl htok
    | cons c t => exact ⟨c, t, rfl⟩
  have hc : isStreamWs c = false := hall c (List.mem_cons_self c t)
  have hsplit := takeWhile_append_all (p := fun x => !isStreamWs x) (c :: t) rest
    (fun x hx => by simp [hall x hx]) (spaceBoundary_bang hrest)
  simp only [List.cons_append] at hsplit
  rw [readStr]
  simp [show isStreamWs ' ' = true from rfl, List.dropWhile_cons,
    dropWhile_cons_neg _ hc, hsplit.1, hsplit.2]

theorem readU32_spec (n : Nat) (rest : List Char) (cur : Nat) (hn : n < 2 ^ 32)
    (hrest : rest = [] ∨ ∃ t, rest = ' ' :: t) :
    readU32 cur ⟨' ' :: (renderNat n ++ rest), false⟩ = (n, ⟨rest, false⟩) := by
  obtain ⟨c, t, hct⟩ : ∃ c t, renderNat n = c :: t := by
    cases h : renderNat n with
    | nil => exact absurd h (renderNat_ne_nil n)
    | cons c t => exact ⟨c, t, rfl⟩
  have hdig : ∀ x ∈ renderNat n, Char.isDigit x = true := renderNat_all_digits n
  have hc : isStreamWs c = false :=
    isDigit_not_ws (hdig c (hct ▸ List.mem_cons_self c t))
  have hsplit := takeWhile_append_all (p := Char.isDigit) (renderNat n) rest
    hdig (spaceBoundary_digit hrest)
  have hval := natFromDigits_renderNat n
  rw [hct] at hsplit hval ⊢
  simp only [List.cons_append] at hsplit
  have hn2 : n < 4294967296 := by simpa using hn
  rw [readU32]
  simp [show isStreamWs ' ' = true from rfl, List.dropWhile_cons,
    dropWhile_cons_neg _ hc, hsplit.1, hsplit.2, hval, hn2]

theorem readBool_spec (b : Bool) (rest : List Char) (cur : Bool)
    (hrest : rest = [] ∨ ∃ t, rest = ' ' :: t) :
    readBool cur ⟨' ' :: ((if b then ['1'] else ['0']) ++ rest), false⟩ =
      (b, ⟨rest, false⟩) := by
  have hsplit1 := takeWhile_append_all (p := Char.isDigit) ['1'] rest
    (by intro c hc; simp at hc; subst hc; decide) (spaceBoundary_digit hrest)
  have hsplit0 := takeWhile_append_all (p := Char.isDigit) ['0'] rest
    (by intro c hc; simp at hc; subst hc; decide) (spaceBoundary_digit hrest)
  simp only [List.cons_append, List.nil_append] at hsplit1 hsplit0
  cases b with
  | false =>
    rw [readBool]
    simp [show isStreamWs ' ' = true from rfl, show isStreamWs '0' = false from rfl,
      List.dropWhile_cons, hsplit0.1, hsplit0.2, natFromDigits]
  | true =>
    rw [readBool]
    simp [show isStreamWs ' ' = true from rfl, show isStreamWs '1' = false from rfl,
      List.dropWhile_cons, hsplit1.1, hsplit1.2, natFromDigits]

theorem readSign_not_sign {c : Char} (t : List Char) (h1 : c ≠ '-') (h2 : c ≠ '+') :
    readSign (c :: t) = (false, c :: t) := by
  unfold readSign
  split
  · next heq => rw [List.cons.injEq] at heq; exact absurd heq.1 h1
  · next heq => rw [List.cons.injEq] at heq; exact absurd heq.1 h2
  · rfl


theorem readSign_minus (t : List Char) : readSign ('-' :: t) = (true, t) := rfl

theorem getline_space_spec (m : String) (cur : String)
    (hm : ∀ c ∈ m.data, c ≠ '\n') :
    getlineRest cur ⟨' ' :: m.data, false⟩ =
      (String.mk (' ' :: m.data), ⟨[], false⟩) := by
  have h := takeWhile_append_all (p := fun c => !decide (c = '\n')) m.data []
    (by
      intro c hc
      simp [hm c hc])
    (Or.inl rfl)
  rw [List.append_nil] at h
  rw [getlineRest]
  simp [h.1, h.2]

theorem stripOneSpace_cons (ds : List Char) :
    stripOneSpace (String.mk (' ' :: ds)) = String.mk ds := rfl

theorem readF64_spec (d : Decimal) (rest : List Char) (cur : ℚ) (hwf : d.wf)
    (hrest : rest = [] ∨ ∃ t, rest = ' ' :: t) :
    readF64 cur ⟨' ' :: (d.render ++ rest), false⟩ = (d.val, ⟨rest, false⟩) := by
  obtain ⟨neg, ip, fp, fl⟩ := d
  unfold Decimal.wf at hwf
  obtain ⟨c, t, hct⟩ : ∃ c t, renderNat ip = c :: t := by
    cases h : renderNat ip with
    | nil => exact absurd h (renderNat_ne_nil ip)
    | cons c t => exact ⟨c, t, rfl⟩
  have hdigip := renderNat_all_digits ip
  have hcd : Char.isDigit c = true := hdigip c (hct ▸ List.mem_cons_self c t)
  have hc : isStreamWs c = false := isDigit_not_ws hcd
  have hcm : c ≠ '-' := by
    intro h
    rw [h] at hcd
    exact absurd hcd (by decide)
  have hcp : c ≠ '+' := by
    intro h
    rw [h] at hcd
    exact absurd hcd (by decide)
  have hsplitip := takeWhile_append_all (p := Char.isDigit) (renderNat ip)
    ('.' :: (padDigits fl fp ++ rest)) hdigip
    (Or.inr ⟨'.', padDigits fl fp ++ rest, rfl, by decide⟩)
  have hsplitfp := takeWhile_append_all (p := Char.isDigit) (padDigits fl fp) rest
    (padDigits_all_digits fl fp) (spaceBoundary_digit hrest)
  have hvalip : natFromDigits (c :: t) = ip := hct ▸ natFromDigits_renderNat ip
  have hvalfp := @padDigits_val fl fp hwf
  rw [hct] at hsplitip
  simp only [List.cons_append] at hsplitip
  simp [hcd] at hsplitip
  rcases hrest with rfl | ⟨r2, rfl⟩ <;> cases neg <;> (
    try simp only [List.append_nil] at hsplitip hsplitfp
    rw [readF64]
    simp only [Decimal.render, Decimal.val, if_true, if_false, Bool.false_eq_true,
      Bool.true_eq_false, List.nil_append, List.cons_append, List.append_assoc,
      hct]
    simp [show isStreamWs ' ' = true from rfl, show isStreamWs '-' = false from rfl,
      List.dropWhile_cons, dropWhile_cons_neg _ hc, hcd,
      readSign_not_sign _ hcm hcp, readSign_minus,
      hsplitip.1, hsplitip.2, hsplitfp.1, hsplitfp.2, hvalip, hvalfp])

theorem rt_paramSet (e : Nat) (s : String) (v : Decimal)
    (he : e < 2 ^ 32) (hs : isToken s) (hv : v.wf) :
    parseFeedbackLine (WireRecord.toLine (.paramSet e s v)) =
      WireRecord.toEvent (.paramSet e s v) := by
  obtain ⟨hs1, hs2⟩ := hs
  have hdata : (WireRecord.toLine (.paramSet e s v)).data =
      "param_set".data ++
        (' ' :: (renderNat e ++ (' ' :: (s.data ++ (' ' :: v.render))))) := by
    simp [WireRecord.toLine, String.data_append,
      show ("param_set " : String).data = "param_set".data ++ [' '] from rfl,
      show (" " : String).data = [' '] from rfl, List.append_assoc]
  have hread1 := readStr_spec ("param_set".data)
    (' ' :: (renderNat e ++ (' ' :: (s.data ++ (' ' :: v.render))))) ""
    (by decide) (by decide) (Or.inr ⟨_, rfl⟩)
  have hread2 := readU32_spec e (' ' :: (s.data ++ (' ' :: v.render))) 0 he
    (Or.inr ⟨_, rfl⟩)
  have hread3 := readStr_space_spec s.data (' ' :: v.render) "" hs1 hs2
    (Or.inr ⟨_, rfl⟩)
  have hread4 := readF64_spec v [] 0 hv (Or.inl rfl)
  rw [List.append_nil] at hread4
  rw [parseFeedbackLine, IStream.ofString, hdata]
  rw [hread1]
  simp only [show String.mk "param_set".data = "param_set" from rfl,
    show String.mk s.data = s from rfl, hread2, hread3, hread4]
  simp [WireRecord.toEvent]

theorem rt_audioMonitor (i : Nat) (v : Decimal) (hi : i < 2 ^ 32) (hv : v.wf) :
    parseFeedbackLine (WireRecord.toLine (.audioMonitor i v)) =
      WireRecord.toEvent (.audioMonitor i v) := by
  have hdata : (WireRecord.toLine (.audioMonitor i v)).data =
      "audio_monitor".data ++ (' ' :: (renderNat i ++ (' ' :: v.render))) := by
    simp [WireRecord.toLine, String.data_append,
      show ("audio_monitor " : String).data = "audio_monitor".data ++ [' '] from rfl,
      show (" " : String).data = [' '] from rfl, List.append_assoc]
  have hread1 := readStr_spec ("audio_monitor".data)
    (' ' :: (renderNat i ++ (' ' :: v.render))) ""
    (by decide) (by decide) (Or.inr ⟨_, rfl⟩)
  have hread2 := readU32_spec i (' ' :: v.render) 0 hi (Or.inr ⟨_, rfl⟩)
  have hread3 := readF64_spec v [] 0 hv (Or.inl rfl)
  rw [List.append_nil] at hread3
  rw [parseFeedbackLine, IStream.ofString, hdata]
  rw [hread1]
  simp only [show String.mk "audio_monitor".data = "audio_monitor" from rfl,
    hread2, hread3]
  simp [WireRecord.toEvent]

theorem rt_outputSet (e : Nat) (s : String) (v : Decimal)
    (he : e < 2 ^ 32) (hs : isToken s) (hv : v.wf) :
    parseFeedbackLine (WireRecord.toLine (.outputSet e s v)) =
      WireRecord.toEvent (.outputSet e s v) := by
  obtain ⟨hs1, hs2⟩ := hs
  have hdata : (WireRecord.toLine (.outputSet e s v)).data =
      "output_set".data ++
        (' ' :: (renderNat e ++ (' ' :: (s.data ++ (' ' :: v.render))))) := by
    simp [WireRecord.toLine, String.data_append,
      show ("output_set " : String).data = "output_set".data ++ [' '] from rfl,
      show (" " : String).data = [' '] from rfl, List.append_assoc]
  have hread1 := readStr_spec ("output_set".data)
    (' ' :: (renderNat e ++ (' ' :: (s.data ++ (' ' :: v.render))))) ""
    (by decide) (by decide) (Or.inr ⟨_, rfl⟩)
  have hread2 := readU32_spec e (' ' :: (s.data ++ (' ' :: v.render))) 0 he
    (Or.inr ⟨_, rfl⟩)
  have hread3 := readStr_space_spec s.data (' ' :: v.render) "" hs1 hs2
    (Or.inr ⟨_, rfl⟩)
  have hread4 := readF64_spec v [] 0 hv (Or.inl rfl)
  rw [List.append_nil] at hread4
  rw [parseFeedbackLine, IStream.ofString, hdata]
  rw [hread1]
  simp only [show String.mk "output_set".data = "output_set" from rfl,
    show String.mk s.data = s from rfl, hread2, hread3, hread4]
  simp [WireRecord.toEvent]

theorem rt_midiMapped (e : Nat) (s : String) (ch co : Nat)
    (he : e < 2 ^ 32) (hs : isToken s) (hch : ch < 2 ^ 32) (hco : co < 2 ^ 32) :
    parseFeedbackLine (WireRecord.toLine (.midiMapped e s ch co)) =
      WireRecord.toEvent (.midiMapped e s ch co) := by
  obtain ⟨hs1, hs2⟩ := hs
  have hdata : (WireRecord.toLine (.midiMapped e s ch co)).data =
      "midi_mapped".data ++ (' ' :: (renderNat e ++ (' ' :: (s.data ++
        (' ' :: (renderNat ch ++ (' ' :: renderNat co))))))) := by
    simp [WireRecord.toLine, String.data_append,
      show ("midi_mapped " : String).data = "midi_mapped".data ++ [' '] from rfl,
      show (" " : String).data = [' '] from rfl, List.append_assoc]
  have hread1 := readStr_spec ("midi_mapped".data)
    (' ' :: (renderNat e ++ (' ' :: (s.data ++
      (' ' :: (renderNat ch ++ (' ' :: renderNat co))))))) ""
    (by decide) (by decide) (Or.inr ⟨_, rfl⟩)
  have hread2 := readU32_spec e
    (' ' :: (s.data ++ (' ' :: (renderNat ch ++ (' ' :: renderNat co))))) 0 he
    (Or.inr ⟨_, rfl⟩)
  have hread3 := readStr_space_spec s.data
    (' ' :: (renderNat ch ++ (' ' :: renderNat co))) "" hs1 hs2 (Or.inr ⟨_, rfl⟩)
  have hread4 := readU32_spec ch (' ' :: renderNat co) 0 hch (Or.inr ⟨_, rfl⟩)
  have hread5 := readU32_spec co [] 0 hco (Or.inl rfl)
  rw [List.append_nil] at hread5
  rw [parseFeedbackLine, IStream.ofString, hdata]
  rw [hread1]
  simp only [show String.mk "midi_mapped".data = "midi_mapped" from rfl,
    show String.mk s.data = s from rfl, hread2, hread3, hread4, hread5]
  simp [WireRecord.toEvent]

theorem rt_midiControlChange (ch co v : Nat)
    (hch : ch < 2 ^ 32) (hco : co < 2 ^ 32) (hv : v < 2 ^ 32) :
    parseFeedbackLine (WireRecord.toLine (.midiControlChange ch co v)) =
      WireRecord.toEvent (.midiControlChange ch co v) := by
  have hdata : (WireRecord.toLine (.midiControlChange ch co v)).data =
      "midi_control_change".data ++ (' ' :: (renderNat ch ++
        (' ' :: (renderNat co ++ (' ' :: renderNat v))))) := by
    simp [WireRecord.toLine, String.data_append,
      show ("midi_control_change " : String).data =
        "midi_control_change".data ++ [' '] from rfl,
      show (" " : String).data = [' '] from rfl, List.append_assoc]
  have hread1 := readStr_spec ("midi_control_change".data)
    (' ' :: (renderNat ch ++ (' ' :: (renderNat co ++ (' ' :: renderNat v))))) ""
    (by decide) (by decide) (Or.inr ⟨_, rfl⟩)
  have hread2 := readU32_spec ch (' ' :: (renderNat co ++ (' ' :: renderNat v))) 0
    hch (Or.inr ⟨_, rfl⟩)
  have hread3 := readU32_spec co (' ' :: renderNat v) 0 hco (Or.inr ⟨_, rfl⟩)
  have hread4 := readU32_spec v [] 0 hv (Or.inl rfl)
  rw [List.append_nil] at hread4
  rw [parseFeedbackLine, IStream.ofString, hdata]
  rw [hread1]
  simp only [show String.mk "midi_control_change".data = "midi_control_change" from rfl,
    hread2, hread3, hread4]
  simp [WireRecord.toEvent]

theorem rt_midiProgramChange (p ch : Nat) (hp : p < 2 ^ 32) (hch : ch < 2 ^ 32) :
    parseFeedbackLine (WireRecord.toLine (.midiProgramChange p ch)) =
      WireRecord.toEvent (.midiProgramChange p ch) := by
  have hdata : (WireRecord.toLine (.midiProgramChange p ch)).data =
      "midi_program_change".data ++ (' ' :: (renderNat p ++ (' ' :: renderNat ch))) := by
    simp [WireRecord.toLine, String.data_append,
      show ("midi_program_change " : String).data =
        "midi_program_change".data ++ [' '] from rfl,
      show (" " : String).data = [' '] from rfl, List.append_assoc]
  have hread1 := readStr_spec ("midi_program_change".data)
    (' ' :: (renderNat p ++ (' ' :: renderNat ch))) ""
    (by decide) (by decide) (Or.inr ⟨_, rfl⟩)
  have hread2 := readU32_spec p (' ' :: renderNat ch) 0 hp (Or.inr ⟨_, rfl⟩)
  have hread3 := readU32_spec ch [] 0 hch (Or.inl rfl)
  rw [List.append_nil] at hread3
  rw [parseFeedbackLine, IStream.ofString, hdata]
  rw [hread1]
  simp only [show String.mk "midi_program_change".data = "midi_program_change" from rfl,
    hread2, hread3]
  simp [WireRecord.toEvent]

theorem rt_transport (r : Bool) (b p : Decimal) (hb : b.wf) (hp : p.wf) :
    parseFeedbackLine (WireRecord.toLine (.transport r b p)) =
      WireRecord.toEvent (.transport r b p) := by
  have hdata : (WireRecord.toLine (.transport r b p)).data =
      "transport".data ++ (' ' :: ((if r then ['1'] else ['0']) ++
        (' ' :: (b.render ++ (' ' :: p.render))))) := by
    simp [WireRecord.toLine, String.data_append,
      show ("transport " : String).data = "transport".data ++ [' '] from rfl,
      show (" " : String).data = [' '] from rfl,
      show ((if r then "1" else "0") : String).data =
        (if r then ['1'] else ['0']) from by cases r <;> rfl,
      List.append_assoc]
  have hread1 := readStr_spec ("transport".data)
    (' ' :: ((if r then ['1'] else ['0']) ++ (' ' :: (b.render ++ (' ' :: p.render))))) ""
    (by decide) (by decide) (Or.inr ⟨_, rfl⟩)
  have hread2 := readBool_spec r (' ' :: (b.render ++ (' ' :: p.render))) false
    (Or.inr ⟨_, rfl⟩)
  have hread3 := readF64_spec b (' ' :: p.render) 0 hb (Or.inr ⟨_, rfl⟩)
  have hread4 := readF64_spec p [] 0 hp (Or.inl rfl)
  rw [List.append_nil] at hread4
  rw [parseFeedbackLine, IStream.ofString, hdata]
  rw [hread1]
  simp only [show String.mk "transport".data = "transport" from rfl,
    hread2, hread3, hread4]
  simp [WireRecord.toEvent]

theorem rt_patchSet (i : Nat) (s : String) (j : String)
    (hi : i < 2 ^ 32) (hs : isToken s) (hj : noNewline j) :
    parseFeedbackLine (WireRecord.toLine (.patchSet i s j)) =
      WireRecord.toEvent (.patchSet i s j) := by
  obtain ⟨hs1, hs2⟩ := hs
  have hdata : (WireRecord.toLine (.patchSet i s j)).data =
      "patch_set".data ++ (' ' :: (renderNat i ++ (' ' :: (s.data ++ (' ' :: j.data))))) := by
    simp [WireRecord.toLine, String.data_append,
      show ("patch_set " : String).data = "patch_set".data ++ [' '] from rfl,
      show (" " : String).data = [' '] from rfl, List.append_assoc]
  have hread1 := readStr_spec ("patch_set".data)
    (' ' :: (renderNat i ++ (' ' :: (s.data ++ (' ' :: j.data))))) ""
    (by decide) (by decide) (Or.inr ⟨_, rfl⟩)
  have hread2 := readU32_spec i (' ' :: (s.data ++ (' ' :: j.data))) 0 hi
    (Or.inr ⟨_, rfl⟩)
  have hread3 := readStr_space_spec s.data (' ' :: j.data) "" hs1 hs2
    (Or.inr ⟨_, rfl⟩)
  have hread4 := getline_space_spec j "" hj
  rw [parseFeedbackLine, IStream.ofString, hdata]
  rw [hread1]
  simp only [show String.mk "patch_set".data = "patch_set" from rfl,
    show String.mk s.data = s from rfl, hread2, hread3, hread4, stripOneSpace_cons]
  simp [WireRecord.toEvent, show String.mk j.data = j from rfl]

theorem rt_log (l : Nat) (m : String) (hl : l < 2 ^ 32) (hm : noNewline m) :
    parseFeedbackLine (WireRecord.toLine (.log l m)) =
      WireRecord.toEvent (.log l m) := by
  have hdata : (WireRecord.toLine (.log l m)).data =
      "log".data ++ (' ' :: (renderNat l ++ (' ' :: m.data))) := by
    simp [WireRecord.toLine, String.data_append,
      show ("log " : String).data = "log".data ++ [' '] from rfl,
      show (" " : String).data = [' '] from rfl, List.append_assoc]
  have hread1 := readStr_spec ("log".data)
    (' ' :: (renderNat l ++ (' ' :: m.data))) ""
    (by decide) (by decide) (Or.inr ⟨_, rfl⟩)
  have hread2 := readU32_spec l (' ' :: m.data) 0 hl (Or.inr ⟨_, rfl⟩)
  have hread3 := getline_space_spec m "" hm
  rw [parseFeedbackLine, IStream.ofString, hdata]
  rw [hread1]
  simp only [show String.mk "log".data = "log" from rfl,
    hread2, hread3, stripOneSpace_cons]
  simp [WireRecord.toEvent, show String.mk m.data = m from rfl]

theorem rt_cpuLoad (l m : Decimal) (x : Nat) (hl : l.wf) (hm : m.wf)
    (hx : x < 2 ^ 32) :
    parseFeedbackLine (WireRecord.toLine (.cpuLoad l m x)) =
      WireRecord.toEvent (.cpuLoad l m x) := by
  have hdata : (WireRecord.toLine (.cpuLoad l m x)).data =
      "cpu_load".data ++ (' ' :: (l.render ++ (' ' :: (m.render ++
        (' ' :: renderNat x))))) := by
    simp [WireRecord.toLine, String.data_append,
      show ("cpu_load " : String).data = "cpu_load".data ++ [' '] from rfl,
      show (" " : String).data = [' '] from rfl, List.append_assoc]
  have hread1 := readStr_spec ("cpu_load".data)
    (' ' :: (l.render ++ (' ' :: (m.render ++ (' ' :: renderNat x))))) ""
    (by decide) (by decide) (Or.inr ⟨_, rfl⟩)
  have hread2 := readF64_spec l (' ' :: (m.render ++ (' ' :: renderNat x))) 0 hl
    (Or.inr ⟨_, rfl⟩)
  have hread3 := readF64_spec m (' ' :: renderNat x) 0 hm (Or.inr ⟨_, rfl⟩)
  have hread4 := readU32_spec x [] 0 hx (Or.inl rfl)
  rw [List.append_nil] at hread4
  rw [parseFeedbackLine, IStream.ofString, hdata]
  rw [hread1]
  simp only [show String.mk "cpu_load".data = "cpu_load" from rfl,
    hread2, hread3, hread4]
  simp [WireRecord.toEvent]

theorem rt_ccMap (r : String) (hr : noNewline r) :
    parseFeedbackLine (WireRecord.toLine (.ccMap r)) =
      WireRecord.toEvent (.ccMap r) := by
  have hdata : (WireRecord.toLine (.ccMap r)).data =
      "cc_map".data ++ (' ' :: r.data) := by
    simp [WireRecord.toLine, String.data_append,
      show ("cc_map " : String).data = "cc_map".data ++ [' '] from rfl,
      List.append_assoc]
  have hread1 := readStr_spec ("cc_map".data) (' ' :: r.data) ""
    (by decide) (by decide) (Or.inr ⟨_, rfl⟩)
  have hread2 := getline_space_spec r "" hr
  rw [parseFeedbackLine, IStream.ofString, hdata]
  rw [hread1]
  simp only [show String.mk "cc_map".data = "cc_map" from rfl,
    hread2, stripOneSpace_cons]
  simp [WireRecord.toEvent, show String.mk r.data = r from rfl]

/-! ## Claim theorems -/

/-- Claim C9: after the first mark_command/mark_feedback update, the health
status equals the pure function of the pair (command_connected,
feedback_connected) given by the table — Unhealthy when command is false,
Degraded when command is true and feedback is false, Healthy when both are
true — and the Starting status is never re-entered (any nonempty update
sequence, from any state, ends in a non-Starting status that matches the
table). -/
theorem health_status_table_after_startup (s0 : HealthState)
    (us : List HealthUpdate) (h : us ≠ []) :
    (HealthState.applyUpdates s0 us).status =
      derivedStatus (HealthState.applyUpdates s0 us).command_connected
        (HealthState.applyUpdates s0 us).feedback_connected ∧
    (HealthState.applyUpdates s0 us).status ≠ HealthStatus.starting :=
  health_applyUpdates_aux us s0 h

/-- Witness for C9: one concrete update from the initial Starting state
lands on the table value (Degraded) and leaves Starting. -/
theorem health_status_table_after_startup_witness :
    (HealthState.applyUpdates HealthState.initial [HealthUpdate.markCommand true]).status =
      derivedStatus
        (HealthState.applyUpdates HealthState.initial
          [HealthUpdate.markCommand true]).command_connected
        (HealthState.applyUpdates HealthState.initial
          [HealthUpdate.markCommand true]).feedback_connected ∧
    (HealthState.applyUpdates HealthState.initial
      [HealthUpdate.markCommand true]).status ≠ HealthStatus.starting :=
  health_status_table_after_startup HealthState.initial [HealthUpdate.markCommand true]
    (by decide)

/-- Claim C1 (code evaluation at the failing input): for the legacy request
`{"command":"ping"}` against an engine whose command port replies
`resp 0`, the response the service loop actually sends is the
default-constructed (null) outer `json_resp` — the inner declaration at
line 104 of command_service.cpp shadows it — and not the success object
`{"status":"resp 0","raw":"resp 0"}` produced by `process_command`, so the
response differs from the one the claim requires. -/
theorem legacy_response_shadowing_bug :
    serviceLegacyResponse (CommandRequest.raw "ping") (fun _ => some "resp 0") =
      JVal.jnull ∧
    process_command (CommandRequest.raw "ping") (fun _ => some "resp 0") =
      JVal.jobjStr [("status", "resp 0"), ("raw", "resp 0")] ∧
    serviceLegacyResponse (CommandRequest.raw "ping") (fun _ => some "resp 0") ≠
      process_command (CommandRequest.raw "ping") (fun _ => some "resp 0") := by
  refine ⟨rfl, rfl, ?_⟩
  decide

/-- Claim C2 (code evaluation at the failing input): the bytes written on
the engine command connection are exactly the command's bytes for every
command — appending the C string literal `"\0"` to a `std::string`
contributes no characters — so for the command `ping` the wire carries no
trailing NUL byte, contradicting the claimed NUL-terminated request. -/
theorem send_to_modhost_missing_nul :
    (∀ command : List Nat, sendToModhostWireBytes command = command) ∧
    sendToModhostWireBytes (strBytes "ping") ≠ strBytes "ping" ++ [0] := by
  constructor
  · intro command
    simp [sendToModhostWireBytes, modhostPayloadBytes, cStringChars, nulLiteralBytes]
  · decide

/-- Claim C4 (code evaluation at the failing input): the feedback line
`param_set 7 gain xyz` has the recognized leading type `param_set` but a
non-numeric value field; stream extraction stores 0 for the failed double
conversion without throwing, so the parser returns a `param_set` event with
a zeroed value — not the `Unknown` event carrying the raw line that the
claim requires. -/
theorem parse_malformed_recognized_type_not_unknown :
    parseFeedbackLine "param_set 7 gain xyz" =
      FeedbackMessage.paramSet 7 "gain" 0 ∧
    parseFeedbackLine "param_set 7 gain xyz" ≠
      FeedbackMessage.unknown "param_set 7 gain xyz" := by
  constructor
  · decide
  · decide

/-- Claim C8: for every (type, field-tuple) pair of the §4.3 feedback
grammar (with well-formed tuples: 32-bit u32 fields, single-token symbols,
well-formed decimal numerals, newline-free rest-of-line fields),
constructing the wire line and parsing it yields an event equal to the
original tuple; and every line whose leading whitespace-delimited token is
not one of the twelve recognized types parses to an `Unknown` event
carrying the full raw line. -/
theorem parser_roundtrip (t : WireRecord) (line : String) (hwf : t.wf)
    (hunknown : firstToken line ∉ recognizedTypes) :
    parseFeedbackLine t.toLine = t.toEvent ∧
    parseFeedbackLine line = FeedbackMessage.unknown line := by
  constructor
  · cases t with
    | paramSet e s v => exact rt_paramSet e s v hwf.1 hwf.2.1 hwf.2.2
    | audioMonitor i v => exact rt_audioMonitor i v hwf.1 hwf.2
    | outputSet e s v => exact rt_outputSet e s v hwf.1 hwf.2.1 hwf.2.2
    | midiMapped e s ch co =>
      exact rt_midiMapped e s ch co hwf.1 hwf.2.1 hwf.2.2.1 hwf.2.2.2
    | midiControlChange ch co v =>
      exact rt_midiControlChange ch co v hwf.1 hwf.2.1 hwf.2.2
    | midiProgramChange p ch => exact rt_midiProgramChange p ch hwf.1 hwf.2
    | transport r b p => exact rt_transport r b p hwf.1 hwf.2
    | patchSet i s j => exact rt_patchSet i s j hwf.1 hwf.2.1 hwf.2.2
    | log l m => exact rt_log l m hwf.1 hwf.2
    | cpuLoad l m x => exact rt_cpuLoad l m x hwf.1 hwf.2.1 hwf.2.2
    | dataFinish => decide
    | ccMap r => exact rt_ccMap r hwf
  · have hty : firstToken line = (readStr "" (IStream.ofString line)).1 := rfl
    rw [parseFeedbackLine]
    rcases hpr : readStr "" (IStream.ofString line) with ⟨ty, st1⟩
    rw [hpr] at hty
    simp only [recognizedTypes, List.mem_cons, List.not_mem_nil, or_false,
      not_or] at hunknown
    rw [hty] at hunknown
    obtain ⟨h1, h2, h3, h4, h5, h6, h7, h8, h9, h10, h11, h12⟩ := hunknown
    simp [h1, h2, h3, h4, h5, h6, h7, h8, h9, h10, h11, h12]

/-- Witness for C8: the tuple (param_set, 7, gain, 0.25) survives the
round trip, and the unrecognized line `bogus stuff` parses to Unknown. -/
theorem parser_roundtrip_witness :
    parseFeedbackLine (WireRecord.toLine
        (WireRecord.paramSet 7 "gain" ⟨false, 0, 25, 2⟩)) =
      WireRecord.toEvent (WireRecord.paramSet 7 "gain" ⟨false, 0, 25, 2⟩) ∧
    parseFeedbackLine "bogus stuff" = FeedbackMessage.unknown "bogus stuff" :=
  parser_roundtrip (WireRecord.paramSet 7 "gain" ⟨false, 0, 25, 2⟩) "bogus stuff"
    ⟨(by decide : (7 : Nat) < 2 ^ 32), (by decide : isToken "gain"),
      (by decide : (25 : Nat) < 10 ^ 2)⟩ (by decide)

/-- Counterexample for C5: starting from the catalog {a} and a rescan that
discovers exactly {b}, one URI was added and one removed, so the claim
requires the pair (1, 1); the code computes signed size differences and
returns (0, 0). -/
theorem rescan_counts_counterexample :
    (process_rescan_plugins [("a", mkPluginInfo "a")] (Except.ok ["b"])
        (fun u => Except.ok (if u = "b" then some (mkPluginInfo "b") else none))
        (fun _ => { is_valid := true, error_message := "" })).2.2.plugins_added = 0 ∧
    (process_rescan_plugins [("a", mkPluginInfo "a")] (Except.ok ["b"])
        (fun u => Except.ok (if u = "b" then some (mkPluginInfo "b") else none))
        (fun _ => { is_valid := true, error_message := "" })).2.2.plugins_removed = 0 ∧
    specAddedCount [("a", mkPluginInfo "a")]
      (process_rescan_plugins [("a", mkPluginInfo "a")] (Except.ok ["b"])
        (fun u => Except.ok (if u = "b" then some (mkPluginInfo "b") else none))
        (fun _ => { is_valid := true, error_message := "" })).1 = 1 ∧
    specRemovedCount [("a", mkPluginInfo "a")]
      (process_rescan_plugins [("a", mkPluginInfo "a")] (Except.ok ["b"])
        (fun u => Except.ok (if u = "b" then some (mkPluginInfo "b") else none))
        (fun _ => { is_valid := true, error_message := "" })).1 = 1 := by
  refine ⟨rfl, rfl, ?_, ?_⟩ <;> decide

/-- Claim C5 (amended): `process_rescan_plugins` returns status "ok" with
the pair of signed catalog-size differences (new − old, old − new), not the
set-difference counts versus the prior catalog; equal-size churn therefore
reports (0, 0). -/
theorem rescan_counts_are_size_deltas (available : Catalog)
    (scanRes : Except String (List String))
    (infoFn : String → Except String (Option PluginInfo))
    (validator : PluginInfo → ValidationResult) :
    (process_rescan_plugins available scanRes infoFn validator).2.2.plugins_added =
      ((process_rescan_plugins available scanRes infoFn validator).1.length : Int) -
        available.length ∧
    (process_rescan_plugins available scanRes infoFn validator).2.2.plugins_removed =
      (available.length : Int) -
        (process_rescan_plugins available scanRes infoFn validator).1.length ∧
    (process_rescan_plugins available scanRes infoFn validator).2.2.status = "ok" :=
  ⟨rfl, rfl, rfl⟩

/-- Claim C10: when the rescan pipeline (mini scan or any per-URI detailed
info fetch) raises an adapter exception, `rescan_plugins` leaves the
catalog exactly as it was and publishes no event — the catalog is replaced
and `plugins_rescanned` emitted only when the whole pipeline completes. -/
theorem rescan_atomic_on_adapter_exception (available : Catalog)
    (scanRes : Except String (List String))
    (infoFn : String → Except String (Option PluginInfo))
    (validator : PluginInfo → ValidationResult) (e : String)
    (h : rescanFetch scanRes infoFn = Except.error e) :
    rescan_plugins available scanRes infoFn validator = (available, []) := by
  unfold rescan_plugins
  rw [h]

/-- Witness for C10: a failing mini scan leaves the one-entry catalog
untouched and publishes nothing. -/
theorem rescan_atomic_on_adapter_exception_witness :
    rescan_plugins [("a", mkPluginInfo "a")] (Except.error "scan failed")
      (fun _ => Except.ok none) (fun _ => { is_valid := true, error_message := "" }) =
      ([("a", mkPluginInfo "a")], []) :=
  rescan_atomic_on_adapter_exception [("a", mkPluginInfo "a")]
    (Except.error "scan failed") (fun _ => Except.ok none)
    (fun _ => { is_valid := true, error_message := "" }) "scan failed" rfl

theorem matchesCriteria_iff (p : PluginInfo) (c : PluginSearchCriteria) :
    matchesCriteria p c = true ↔
      ((c.category = "" ∨ ∃ cat ∈ p.category,
          containsSub (toLowerStr cat) (toLowerStr c.category) = true) ∧
       (c.author = "" ∨
          containsSub (toLowerStr p.author.name) (toLowerStr c.author) = true) ∧
       (0 < c.min_audio_inputs →
          c.min_audio_inputs ≤ (p.ports.audio_inputs.length : Int)) ∧
       (0 < c.min_audio_outputs →
          c.min_audio_outputs ≤ (p.ports.audio_outputs.length : Int)) ∧
       (0 ≤ c.max_audio_inputs →
          (p.ports.audio_inputs.length : Int) ≤ c.max_audio_inputs) ∧
       (0 ≤ c.max_audio_outputs →
          (p.ports.audio_outputs.length : Int) ≤ c.max_audio_outputs)) := by
  unfold matchesCriteria
  simp only [Bool.and_eq_true, and_assoc]
  refine and_congr ?_ (and_congr ?_ (and_congr ?_ (and_congr ?_ (and_congr ?_ ?_))))
  · by_cases hc : c.category.isEmpty
    · rw [if_pos hc]
      exact iff_of_true rfl (Or.inl (string_isEmpty_iff.mp hc))
    · rw [if_neg hc]
      have hne : ¬ c.category = "" := fun he => hc (string_isEmpty_iff.mpr he)
      constructor
      · intro h
        exact Or.inr (List.any_eq_true.mp h)
      · rintro (h | h)
        · exact absurd h hne
        · exact List.any_eq_true.mpr h
  · rw [Bool.or_eq_true]
    by_cases ha : c.author.isEmpty
    · exact iff_of_true (Or.inl ha) (Or.inl (string_isEmpty_iff.mp ha))
    · have hne : ¬ c.author = "" := fun he => ha (string_isEmpty_iff.mpr he)
      constructor
      · rintro (h | h)
        · exact absurd h ha
        · exact Or.inr h
      · rintro (h | h)
        · exact absurd h hne
        · exact Or.inr h
  · by_cases hp : 0 < c.min_audio_inputs ∧
        (p.ports.audio_inputs.length : Int) < c.min_audio_inputs
    · rw [if_pos hp]
      apply iff_of_false (by simp)
      push_neg
      exact ⟨hp.1, hp.2⟩
    · rw [if_neg hp]
      apply iff_of_true rfl
      intro hmin
      by_contra hlt
      push_neg at hlt
      exact hp ⟨hmin, hlt⟩
  · by_cases hp : 0 < c.min_audio_outputs ∧
        (p.ports.audio_outputs.length : Int) < c.min_audio_outputs
    · rw [if_pos hp]
      apply iff_of_false (by simp)
      push_neg
      exact ⟨hp.1, hp.2⟩
    · rw [if_neg hp]
      apply iff_of_true rfl
      intro hmin
      by_contra hlt
      push_neg at hlt
      exact hp ⟨hmin, hlt⟩
  · by_cases hp : 0 ≤ c.max_audio_inputs ∧
        c.max_audio_inputs < (p.ports.audio_inputs.length : Int)
    · rw [if_pos hp]
      apply iff_of_false (by simp)
      push_neg
      exact ⟨hp.1, hp.2⟩
    · rw [if_neg hp]
      apply iff_of_true rfl
      intro hmax
      by_contra hlt
      push_neg at hlt
      exact hp ⟨hmax, hlt⟩
  · by_cases hp : 0 ≤ c.max_audio_outputs ∧
        c.max_audio_outputs < (p.ports.audio_outputs.length : Int)
    · rw [if_pos hp]
      apply iff_of_false (by simp)
      push_neg
      exact ⟨hp.1, hp.2⟩
    · rw [if_neg hp]
      apply iff_of_true rfl
      intro hmax
      by_contra hlt
      push_neg at hlt
      exact hp ⟨hmax, hlt⟩

/-- Counterexample for C6: with a criteria object whose only set field is
`has_parameter = "gain"`, a catalog entry with no control port at all (so
it cannot satisfy the required-parameter-symbol filter, as the spec-side
predicate confirms) is nevertheless returned by the source filter — the
`has_parameter` field is never consulted. -/
theorem search_has_parameter_ignored_counterexample :
    filterPlugins { has_parameter := "gain" } [("u", mkPluginInfo "u")] =
      [mkPluginInfo "u"] ∧
    specHasParameterOk (mkPluginInfo "u") { has_parameter := "gain" } = false := by
  constructor
  · decide
  · decide

/-- Claim C6 (amended): with a criteria object present, the search result
contains exactly the catalog entries that satisfy the category and author
case-insensitive substring fields and the audio port-count bounds (a
positive minimum and a non-negative maximum are enforced; other bound
values act as wildcards); the `has_parameter`, `requires_realtime` and
`required_features` fields are ignored by the filter. -/
theorem search_plugins_criteria_member_iff (query : String)
    (criteria : PluginSearchCriteria) (available : Catalog) (p : PluginInfo) :
    p ∈ process_search_plugins { query := query, criteria := some criteria }
        available ↔
      ((∃ uri, (uri, p) ∈ available) ∧
       (criteria.category = "" ∨ ∃ cat ∈ p.category,
          containsSub (toLowerStr cat) (toLowerStr criteria.category) = true) ∧
       (criteria.author = "" ∨
          containsSub (toLowerStr p.author.name) (toLowerStr criteria.author) = true) ∧
       (0 < criteria.min_audio_inputs →
          criteria.min_audio_inputs ≤ (p.ports.audio_inputs.length : Int)) ∧
       (0 < criteria.min_audio_outputs →
          criteria.min_audio_outputs ≤ (p.ports.audio_outputs.length : Int)) ∧
       (0 ≤ criteria.max_audio_inputs →
          (p.ports.audio_inputs.length : Int) ≤ criteria.max_audio_inputs) ∧
       (0 ≤ criteria.max_audio_outputs →
          (p.ports.audio_outputs.length : Int) ≤ criteria.max_audio_outputs)) := by
  show p ∈ filterPlugins criteria available ↔ _
  unfold filterPlugins
  simp only [List.mem_map, List.mem_filter]
  constructor
  · rintro ⟨pr, ⟨hmem, hmatch⟩, rfl⟩
    have hm := (matchesCriteria_iff pr.2 criteria).mp hmatch
    exact ⟨⟨pr.1, by simpa using hmem⟩, hm.1, hm.2.1, hm.2.2.1, hm.2.2.2.1,
      hm.2.2.2.2.1, hm.2.2.2.2.2⟩
  · rintro ⟨⟨uri, hmem⟩, h1, h2, h3, h4, h5, h6⟩
    exact ⟨(uri, p), ⟨hmem,
      (matchesCriteria_iff p criteria).mpr ⟨h1, h2, h3, h4, h5, h6⟩⟩, rfl⟩

/-- Counterexample for C3: the feedback record `param_set 7 gain 9` parses
to a `param_set` event carrying the engine_instance 7 of the loaded
instance, yet processing it leaves the registry's instance map unchanged —
the stored value stays 5 instead of the claimed 9, because the feedback
reader only publishes events and never mutates the map.  Moreover, an
instance loaded with an initial parameter whose best-effort `param_set`
send fails (the engine accepts only the `add` command here) still records
that value as current. -/
theorem param_map_feedback_counterexample :
    (feedbackRecordStep [("i1", sampleInstance)] "param_set 7 gain 9").1 =
      [("i1", sampleInstance)] ∧
    parseFeedbackLine "param_set 7 gain 9" =
      FeedbackMessage.paramSet 7 "gain" 9 ∧
    sampleInstance.host_instance = some 7 ∧
    assocFind sampleInstance.parameters "gain" = some 5 ∧
    ((5 : ℚ)) ≠ 9 ∧
    (∀ c, c ≠ "add foo 0" →
      (fun c => if c = "add foo 0" then some "resp 0" else none) c =
        (none : Option String)) ∧
    Option.map PluginInstance.parameters
      (assocFind (process_load_plugin [("foo", mkPluginInfo "foo")] []
        (fun c => if c = "add foo 0" then some "resp 0" else none)
        { uri := "foo", parameters := [("gain", 5)] } "i9" 0).1 "i9") =
      some [("gain", 5)] := by
  refine ⟨rfl, ?_, rfl, rfl, by norm_num, ?_, rfl⟩
  · have h1 : parseFeedbackLine "param_set 7 gain 9" =
        FeedbackMessage.paramSet 7 "gain"
          (((9 : Nat) : ℚ) + ((0 : Nat) : ℚ) / (10 : ℚ) ^ (0 : Nat)) := rfl
    rw [h1]
    norm_num
  · intro c hc
    simp [hc]

/-- Claim C3 (amended): the parameter value stored for a loaded instance is
the last value recorded by the bridge's own command path — `set_parameter`
stores the value exactly when its engine send succeeds and leaves the map
unchanged (with an error) when it fails, `load_plugin` stores the request's
initial parameters regardless of the outcome of their best-effort
`param_set` sends, and an inbound feedback record never mutates the
registry's instance map. -/
theorem param_value_last_recorded (instances : InstanceMap)
    (engine : String → Option String) (req : SetParameterRequest)
    (inst : PluginInstance) (line : String)
    (h : assocFind instances req.instance_id = some inst) :
    (∀ r, engine ("param_set " ++ req.instance_id ++ " " ++ req.parameter ++ " " ++
        cppToStringF64 req.value) = some r →
      Option.map PluginInstance.parameters
        (assocFind (process_set_parameter instances engine req).1 req.instance_id) =
        some (assocInsert inst.parameters req.parameter req.value)) ∧
    (engine ("param_set " ++ req.instance_id ++ " " ++ req.parameter ++ " " ++
        cppToStringF64 req.value) = none →
      process_set_parameter instances engine req =
        (instances, [], Except.error "Failed to set parameter in mod-host")) ∧
    (feedbackRecordStep instances line).1 = instances ∧
    (∀ (available : Catalog) (req2 : LoadPluginRequest) (iid : String)
        (ninst : Int) (pinfo : PluginInfo) (r : String) (n : Int),
      assocFind available req2.uri = some pinfo →
      engine ("add " ++ req2.uri ++ " " ++ toString ninst) = some r →
      parseAddResponse r = some n →
      Option.map PluginInstance.parameters
        (assocFind
          (process_load_plugin available instances engine req2 iid ninst).1 iid) =
        some req2.parameters) := by
  refine ⟨?_, ?_, rfl, ?_⟩
  · intro r hr
    simp only [process_set_parameter, h, hr]
    rw [assocFind_assocInsert_self]
    rfl
  · intro hn
    simp only [process_set_parameter, h, hn]
  · intro available req2 iid ninst pinfo r n hfound hr hparse
    simp only [process_load_plugin, hfound, hr, hparse]
    rw [assocFind_assocInsert_self]
    rfl

/-- Witness for C3 (amended): concrete successful set_parameter, a feedback
record, and a load with initial parameters, all on concrete maps. -/
theorem param_value_last_recorded_witness :
    Option.map PluginInstance.parameters
      (assocFind (process_set_parameter [("i1", sampleInstance)]
        (fun _ => some "resp 0")
        { instance_id := "i1", parameter := "gain", value := 3 / 4 }).1 "i1") =
      some (assocInsert sampleInstance.parameters "gain" (3 / 4)) ∧
    (feedbackRecordStep [("i1", sampleInstance)] "param_set 7 gain 0.25").1 =
      [("i1", sampleInstance)] ∧
    Option.map PluginInstance.parameters
      (assocFind (process_load_plugin [("foo", mkPluginInfo "foo")]
        [("i1", sampleInstance)] (fun _ => some "resp 0")
        { uri := "foo", parameters := [("gain", 5)] } "i9" 0).1 "i9") =
      some [("gain", 5)] := by
  have thm := param_value_last_recorded [("i1", sampleInstance)]
    (fun _ => some "resp 0")
    { instance_id := "i1", parameter := "gain", value := 3 / 4 } sampleInstance
    "param_set 7 gain 0.25" rfl
  exact ⟨thm.1 "resp 0" rfl, thm.2.2.1,
    thm.2.2.2 [("foo", mkPluginInfo "foo")]
      { uri := "foo", parameters := [("gain", 5)] } "i9" 0
      (mkPluginInfo "foo") "resp 0" 0 rfl rfl rfl⟩

/-- Claim C7: when the engine's reply to `add <uri> <n>` carries no
parseable integer after stripping the `resp ` prefix, or carries a negative
integer, `process_load_plugin` fails with an error, publishes no event (in
particular no plugin_loaded), and returns the instance map unchanged. -/
theorem load_plugin_malformed_resp_fails (available : Catalog)
    (instances : InstanceMap) (engine : String → Option String)
    (req : LoadPluginRequest) (instance_id : String) (numeric_instance : Int)
    (plugin_info : PluginInfo) (r : String)
    (hfound : assocFind available req.uri = some plugin_info)
    (hreply : engine ("add " ++ req.uri ++ " " ++ toString numeric_instance) = some r)
    (hbad : cppStoi (stripRespPrefix r) = none ∨
      ∃ n, cppStoi (stripRespPrefix r) = some n ∧ n < 0) :
    process_load_plugin available instances engine req instance_id numeric_instance =
      (instances, [], Except.error "Failed to parse mod-host response") := by
  have hparse : parseAddResponse r = none := by
    unfold parseAddResponse
    rcases hbad with h | ⟨n, hn, hneg⟩
    · rw [h]
    · rw [hn]
      simp [if_pos hneg]
  simp only [process_load_plugin, hfound, hreply, hparse]

/-- Witness for C7: a catalog hit whose engine reply is `resp abc` (no
integer) produces the parse error and leaves the empty instance map
empty. -/
theorem load_plugin_malformed_resp_fails_witness :
    process_load_plugin [("foo", mkPluginInfo "foo")] []
      (fun _ => some "resp abc") { uri := "foo" } "i1" 0 =
      ([], [], Except.error "Failed to parse mod-host response") :=
  load_plugin_malformed_resp_fails [("foo", mkPluginInfo "foo")] []
    (fun _ => some "resp abc") { uri := "foo" } "i1" 0 (mkPluginInfo "foo")
    "resp abc" rfl rfl (Or.inl (by decide))

end ModhostBridge
